import Mathlib

/-!
Verification of the metric-to-query translation and response-normalization
layer of a two-provider analytics adapter: a GraphQL CDN-analytics adapter
and a signed-REST edge-analytics adapter.

JavaScript values are embedded shallowly: JS numbers that the program uses
as integers become Int or Nat; JS strings become String (or List Nat of
UTF-8 bytes inside the request signer, where byte-level percent-encoding
matters); objects used as dictionaries become association lists; the
stable Array.prototype.sort (stable per the ECMAScript specification)
is modelled by a stable insertion sort, which agrees with every stable
sort for a given comparator.  Upstream HTTP traffic is modelled by
explicit oracle inputs, and each request handler returns the response
it would send together with the list of upstream calls it made, so that
properties such as "zero upstream calls" are directly expressible.
Date parsing and formatting (Date.parse, toISOString) are abstracted as
function parameters, since they are host-environment primitives.
-/

namespace Monitor

/-- Truthiness of a JS string-or-undefined value: undefined and the
empty string are falsy, every other string is truthy. -/
def truthyStr : Option String → Bool
  | none => false
  | some s => if s = "" then false else true

/-- The JS expression o || d for a string-or-undefined o: the default d
applies when o is undefined or the empty string. -/
def truthyOr (o : Option String) (d : String) : String :=
  match o with
  | none => d
  | some s => if s = "" then d else s

/-- Lookup in a JS object literal used as a string-keyed dictionary. -/
def lookupKV {β : Type} : List (String × β) → String → Option β
  | [], _ => none
  | (k, v) :: rest, q => if q = k then some v else lookupKV rest q

/-- One step of the JS pattern obj[k] = (obj[k] || 0) + v on an
integer-keyed accumulator object: add v at key k, inserting the key if
absent (insertion at the end, as JS objects preserve insertion order). -/
def updateAssoc : List (Int × Int) → Int → Int → List (Int × Int)
  | [], k, v => [(k, v)]
  | (k1, v1) :: rest, k, v =>
    if k1 = k then (k1, v1 + v) :: rest else (k1, v1) :: updateAssoc rest k v

/-- Lookup in an integer-keyed accumulator object. -/
def lookupA : List (Int × Int) → Int → Option Int
  | [], _ => none
  | (k1, v1) :: rest, k => if k = k1 then some v1 else lookupA rest k

/-- Insertion step of the stable-sort model: x is inserted after every
element y that strictly precedes it under the comparator (bef y x), and
before the first element that does not, so earlier input elements stay
first among comparator-ties. -/
def insSorted {α : Type} (bef : α → α → Bool) (x : α) : List α → List α
  | [] => [x]
  | y :: ys => if bef y x then y :: insSorted bef x ys else x :: y :: ys

/-- Stable sort: the unique stable reordering for the strict-precedence
comparator bef.  Array.prototype.sort with a comparator c is this sort
with bef a b := (c a b < 0). -/
def stableSort {α : Type} (bef : α → α → Bool) : List α → List α
  | [] => []
  | x :: xs => insSorted bef x (stableSort bef xs)

/-- The source pattern list.sort((a, b) => b.Value - a.Value) on
(Key, Value) rows: stable sort descending by the numeric value. -/
def sortByValueDesc (l : List (String × Int)) : List (String × Int) :=
  stableSort (fun a b => decide (b.2 < a.2)) l

/-- The source pattern entries.sort((a, b) => Number(a[0]) - Number(b[0]))
on (timestamp, value) pairs: stable sort ascending by the key. -/
def sortTsAsc (l : List (Int × Int)) : List (Int × Int) :=
  stableSort (fun a b => decide (a.1 < b.1)) l

/-- Accumulation loop of the time-axis merge (source symbol merged):
rows.forEach(item => { merged[ts] = (merged[ts] || 0) + value }). -/
def buildMergedAux : List (Int × Int) → List (Int × Int) → List (Int × Int)
  | m, [] => m
  | m, r :: rs => buildMergedAux (updateAssoc m r.1 r.2) rs

/-- The merged accumulator object built from (timestamp, value) rows. -/
def buildMerged (rows : List (Int × Int)) : List (Int × Int) :=
  buildMergedAux [] rows

/-- Sum of the values of all rows carrying the key k. -/
def sumAtKey (k : Int) (l : List (Int × Int)) : Int :=
  ((l.filter (fun q => decide (q.1 = k))).map Prod.snd).sum

/-- Object.entries(merged).sort(by numeric key).map to Timestamp/Value
points (source symbol detail). -/
def seriesDetail (resolved : List (Int × Int)) : List (Int × Int) :=
  sortTsAsc (buildMerged resolved)

/-- The reported total: detail.reduce((acc, curr) => acc + curr.Value, 0),
computed over the pre-rollup detail points (source symbol totalSum). -/
def totalSum (detail : List (Int × Int)) : Int :=
  detail.foldl (fun acc c => acc + c.2) 0

/-- Hour-to-day rollup (source symbol finalDetail, long-term branch):
each point keyed by its UTC calendar day, values re-summed per day, days
sorted ascending, and each day mapped to the timestamp of 00:00 UTC of
that day.  The source keys days by the string
new Date(ts * 1000).toISOString().slice(0, 10) and sorts with
localeCompare; for the four-digit-year range of toISOString this YYYY-MM-DD
string is in order-preserving bijection with the UTC day number
Int.fdiv ts 86400 used here, and Date.parse(day + "T00:00:00Z") / 1000 is
exactly 86400 * that day number. -/
def rollupDaily (detail : List (Int × Int)) : List (Int × Int) :=
  (sortTsAsc (buildMerged (detail.map (fun p => (p.1.fdiv 86400, p.2))))).map
    (fun e => (86400 * e.1, e.2))

/-- Test metricParam === "function_requestCount" || metricParam ===
"function_cpuCostTime" on the (possibly absent) metric query parameter. -/
def isFunctionMetric (m : Option String) : Bool :=
  m == some "function_requestCount" || m == some "function_cpuCostTime"

/-- Selection of the final detail list: the daily rollup applies exactly
when the metric is a function metric and the window is long-term. -/
def finalDetail (isFn : Bool) (isLongTerm : Bool)
    (detail : List (Int × Int)) : List (Int × Int) :=
  if isFn && isLongTerm then rollupDaily detail else detail

/-- The source expression s.slice(0, 10): the first ten characters of
the string.  JS slice counts UTF-16 code units, which coincide with
characters on the ASCII ISO-8601 strings this is applied to.  (Defined
on the character list rather than through String.take, whose positional
recursion does not reduce on symbolic strings.) -/
def slice10 (s : String) : String := ⟨s.data.take 10⟩

/-- Result of getTimeConfig.  The source field end is named endTime here
because end is a Lean keyword. -/
structure TimeConfig where
  start : String
  endTime : String
  queryFrom : String
  queryTo : String
  datasetMode : String
  orderBy : String
  dimensionKey : String
  isLongTerm : Bool
  filterObj : List (String × String)
  deriving DecidableEq

/-- Shallow embedding of getTimeConfig.  parse stands for
s => new Date(s).getTime() (milliseconds), toISO for
ms => new Date(ms).toISOString(), nowMs for Date.now(); slice(0, 10) on
the ISO strings becomes String.take 10 (identical on ASCII strings). -/
def getTimeConfig (parse : String → Int) (toISO : Int → String) (nowMs : Int)
    (reqStartTime reqEndTime : Option String) : TimeConfig :=
  let yesterdayMs := nowMs - 24 * 60 * 60 * 1000
  let start := truthyOr reqStartTime (toISO yesterdayMs)
  let endT := truthyOr reqEndTime (toISO nowMs)
  let fromTime := parse start
  if nowMs - fromTime > 3 * 24 * 60 * 60 * 1000 then
    { start := start, endTime := endT,
      queryFrom := slice10 start, queryTo := slice10 endT,
      datasetMode := "httpRequests1dGroups", orderBy := "date_ASC",
      dimensionKey := "date", isLongTerm := true,
      filterObj := [("date_geq", slice10 start), ("date_leq", slice10 endT)] }
  else
    { start := start, endTime := endT,
      queryFrom := start, queryTo := endT,
      datasetMode := "httpRequests1hGroups", orderBy := "datetime_ASC",
      dimensionKey := "datetime", isLongTerm := false,
      filterObj := [("datetime_geq", start), ("datetime_leq", endT)] }

/-- An entry of the CDN adapter registry METRIC_MAP. -/
structure MetricEntry where
  name : String
  sumid : String
  scope : String
  isDistribution : Bool := false
  dimension : Option String := none
  deriving DecidableEq

/-- The CDN adapter registry (source symbol METRIC_MAP), verbatim. -/
def METRIC_MAP : List (String × MetricEntry) :=
  [("l7Flow_flux", { name := "l7Flow_flux", sumid := "bytes", scope := "account" }),
   ("l7Flow_outFlux", { name := "l7Flow_outFlux", sumid := "cachedBytes", scope := "account" }),
   ("l7Flow_request", { name := "l7Flow_request", sumid := "requests", scope := "account" }),
   ("l7Flow_inFlux", { name := "l7Flow_inFlux", sumid := "pageViews", scope := "account" }),
   ("l7Flow_outcc", { name := "l7Flow_outcc", sumid := "threats", scope := "account" }),
   ("l7Flow_cachedRequests",
    { name := "l7Flow_cachedRequests", sumid := "cachedRequests", scope := "account" }),
   ("l7Flow_outFlux_resourceType",
    { name := "l7Flow_outFlux_resourceType", sumid := "bytes", scope := "account",
      isDistribution := true, dimension := some "edgeResponseContentTypeName" }),
   ("l7Flow_request_resourceType",
    { name := "l7Flow_request_resourceType", sumid := "requests", scope := "account",
      isDistribution := true, dimension := some "edgeResponseContentTypeName" }),
   ("l7Flow_outFlux_country",
    { name := "l7Flow_outFlux_country", sumid := "bytes", scope := "account",
      isDistribution := true, dimension := some "clientCountryName" }),
   ("l7Flow_request_country",
    { name := "l7Flow_request_country", sumid := "requests", scope := "account",
      isDistribution := true, dimension := some "clientCountryName" }),
   ("function_requestCount",
    { name := "function_requestCount", sumid := "requests", scope := "account" }),
   ("function_cpuCostTime",
    { name := "function_cpuCostTime", sumid := "cpuTimeUs", scope := "account" }),
   ("l7Flow_outFlux_domain",
    { name := "l7Flow_outFlux_domain", sumid := "bytes", scope := "zone" }),
   ("l7Flow_request_domain",
    { name := "l7Flow_request_domain", sumid := "requests", scope := "zone" })]

/-- The ad-hoc zone Top-N table (source symbol ZONE_TOPN_CONFIG). -/
def ZONE_TOPN_CONFIG : List (String × String) :=
  [("l7Flow_request_sip", "clientIP"),
   ("l7Flow_request_ua_device", "clientRequestHTTPMethodName"),
   ("l7Flow_request_ua_browser", "cacheStatus"),
   ("l7Flow_request_zym", "clientRequestHTTPHost")]

/-- An entry of the edge adapter registry METRIC_CONFIG.  In the source
every entry carries a dimension string; type and action are absent on
the Top-N entries until the load-time default fill. -/
structure EsaEntry where
  action : Option String
  field : String
  dimension : String
  type : Option String
  deriving DecidableEq

/-- The edge adapter registry (source symbol METRIC_CONFIG) before the
load-time default fill, verbatim. -/
def METRIC_CONFIG : List (String × EsaEntry) :=
  [("l7Flow_flux",
    { action := some "DescribeSiteTimeSeriesData", field := "Traffic",
      dimension := "ALL", type := some "TS" }),
   ("l7Flow_inFlux",
    { action := some "DescribeSiteTimeSeriesData", field := "RequestTraffic",
      dimension := "ALL", type := some "TS" }),
   ("l7Flow_outFlux",
    { action := some "DescribeSiteTimeSeriesData", field := "Traffic",
      dimension := "ALL", type := some "TS" }),
   ("l7Flow_request",
    { action := some "DescribeSiteTimeSeriesData", field := "Requests",
      dimension := "ALL", type := some "TS" }),
   ("l7Flow_request_country",
    { action := none, field := "Requests", dimension := "ClientCountryCode", type := none }),
   ("l7Flow_outFlux_country",
    { action := none, field := "Traffic", dimension := "ClientCountryCode", type := none }),
   ("l7Flow_outFlux_province",
    { action := none, field := "Traffic", dimension := "ClientProvinceCode", type := none }),
   ("l7Flow_request_province",
    { action := none, field := "Requests", dimension := "ClientProvinceCode", type := none }),
   ("l7Flow_outFlux_statusCode",
    { action := none, field := "Traffic", dimension := "EdgeResponseStatusCode", type := none }),
   ("l7Flow_request_statusCode",
    { action := none, field := "Requests", dimension := "EdgeResponseStatusCode", type := none }),
   ("l7Flow_outFlux_domain",
    { action := none, field := "Traffic", dimension := "ClientRequestHost", type := none }),
   ("l7Flow_request_domain",
    { action := none, field := "Requests", dimension := "ClientRequestHost", type := none }),
   ("l7Flow_outFlux_url",
    { action := none, field := "Traffic", dimension := "ClientRequestPath", type := none }),
   ("l7Flow_request_url",
    { action := none, field := "Requests", dimension := "ClientRequestPath", type := none }),
   ("l7Flow_outFlux_resourceType",
    { action := none, field := "Traffic", dimension := "EdgeResponseContentType", type := none }),
   ("l7Flow_request_resourceType",
    { action := none, field := "Requests", dimension := "EdgeResponseContentType", type := none }),
   ("l7Flow_outFlux_sip",
    { action := none, field := "Traffic", dimension := "ClientIP", type := none }),
   ("l7Flow_request_sip",
    { action := none, field := "Requests", dimension := "ClientIP", type := none }),
   ("l7Flow_outFlux_referers",
    { action := none, field := "Traffic", dimension := "ClientRequestReferer", type := none }),
   ("l7Flow_request_referers",
    { action := none, field := "Requests", dimension := "ClientRequestReferer", type := none }),
   ("l7Flow_outFlux_ua_os",
    { action := none, field := "Traffic", dimension := "ClientOS", type := none }),
   ("l7Flow_request_ua_os",
    { action := none, field := "Requests", dimension := "ClientOS", type := none }),
   ("l7Flow_outFlux_ua",
    { action := none, field := "Traffic", dimension := "ClientRequestUserAgent", type := none }),
   ("l7Flow_request_ua",
    { action := none, field := "Requests", dimension := "ClientRequestUserAgent", type := none }),
   ("l7Flow_outFlux_ua_device",
    { action := none, field := "Traffic", dimension := "ClientRequestMethod", type := none }),
   ("l7Flow_request_ua_device",
    { action := none, field := "Requests", dimension := "ClientRequestMethod", type := none }),
   ("l7Flow_outFlux_ua_browser",
    { action := none, field := "Traffic", dimension := "EdgeCacheStatus", type := none }),
   ("l7Flow_request_ua_browser",
    { action := none, field := "Requests", dimension := "EdgeCacheStatus", type := none }),
   ("l7Flow_outFlux_urlquery",
    { action := none, field := "Traffic", dimension := "ClientRequestQuery", type := none }),
   ("l7Flow_url_res_query",
    { action := none, field := "Requests", dimension := "ClientRequestQuery", type := none })]

/-- The load-time default fill: entries without a (truthy) action get
action DescribeSiteTopData and type TOP. -/
def fillDefault (e : EsaEntry) : EsaEntry :=
  if truthyStr e.action then e
  else { e with action := some "DescribeSiteTopData", type := some "TOP" }

/-- The edge registry after the load-time default fill, the form every
request is resolved against. -/
def METRIC_CONFIG_filled : List (String × EsaEntry) :=
  METRIC_CONFIG.map (fun p => (p.1, fillDefault p.2))

/-- Credentials resolved by the CDN adapter getKeys (environment or
key.txt fallback; the loading itself is an external collaborator, only
the resolved values matter to the handler). -/
structure CdnKeys where
  secretId : Option String
  secretKey : Option String
  accountTag : Option String
  zonetag : Option String

/-- The CDN handler credential check !secretId || !secretKey ||
!accountTag || !zonetag, negated. -/
def cdnCredsOk (k : CdnKeys) : Bool :=
  truthyStr k.secretId && truthyStr k.secretKey &&
  truthyStr k.accountTag && truthyStr k.zonetag

/-- Query parameters of a CDN adapter request. -/
structure CdnReq where
  metric : Option String
  startTime : Option String
  endTime : Option String

/-- One row of httpRequestsAdaptiveGroups in the ad-hoc Top-N response:
a count plus a dimensions object read at the interpolated field name. -/
structure TopnGroup where
  count : Int
  dims : String → String

/-- One row of the zone-scope dataset: sumAt models the optional chain
item.sum?.[field] (undefined either when sum is absent or when the field
is absent). -/
structure ZoneRow where
  sumAt : String → Option Int

/-- One zone object of a zone-scope GraphQL response; dataset models the
dynamic access zone[timeCfg.datasetMode], undefined when absent. -/
structure GqlZone where
  zoneTag : String
  adaptiveGroups : Option (List TopnGroup)
  dataset : String → Option (List ZoneRow)

/-- One row of the account-scope resultData: dimensions and sum objects
read at dynamic field names. -/
structure AccountRow where
  dims : String → String
  sums : String → Int

/-- One account object of an account-scope GraphQL response. -/
structure GqlAccount where
  resultData : Option (List AccountRow)

/-- A GraphQL response payload as far as the handler inspects it.
errorsPresent is the JS truthiness of apiData.errors (any array,
including an empty one, is truthy; absent or null is falsy); zones and
accounts are the optional chains apiData?.data?.viewer?.zones and
apiData?.data?.viewer?.accounts (none when any link is missing). -/
structure GqlPayload where
  errorsPresent : Bool
  zones : Option (List GqlZone)
  accounts : Option (List GqlAccount)

/-- Upstream oracle for one CDN request: the payloads the upstream would
return for each possible call.  zonesFetch is the result of fetchZones:
ok carries the (id, name) pairs collected from data.result, error models
the thrown Fetch Zones Failed exception message. -/
structure CdnUpstream where
  topn : GqlPayload
  zonesFetch : Except String (List (String × String))
  zoneQuery : GqlPayload
  account : GqlPayload

/-- The ad-hoc zone Top-N GraphQL document, as structured data: the
source interpolates zonetag, the time bounds and the target field name
literally into the query text (limit 10, orderBy count_DESC, filter
datetime_geq / datetime_lt). -/
structure TopnQuery where
  zonetag : String
  targetField : String
  queryFrom : String
  queryTo : String
  deriving DecidableEq

/-- Variable references usable inside the zone-scope query filter. -/
inductive GqlVar
  | zoneIdsV
  | fromV
  | toV
  deriving DecidableEq

/-- The variables object sent with the zone-scope query: zoneIds, from
and to (source comment notes the query itself only uses from). -/
structure ZoneVars where
  zoneIds : List String
  fromV : String
  toV : String
  deriving DecidableEq

/-- The zone-scope GraphQL document as structured data: dataset name,
limit, the filter clause as (field, variable) pairs, orderBy, and the
variables object. -/
structure ZoneQuery where
  datasetMode : String
  limit : Nat
  filter : List (String × GqlVar)
  orderBy : String
  vars : ZoneVars
  deriving DecidableEq

/-- Construction of the zone-scope query: the filter clause contains the
single entry dimensionKey_geq: $from, while the variables carry both
bounds. -/
def buildZoneQuery (cfg : TimeConfig) (zoneIds : List String) : ZoneQuery :=
  { datasetMode := cfg.datasetMode, limit := 1000,
    filter := [(cfg.dimensionKey ++ "_geq", GqlVar.fromV)],
    orderBy := cfg.orderBy,
    vars := { zoneIds := zoneIds, fromV := cfg.queryFrom, toV := cfg.queryTo } }

/-- The account-scope GraphQL document as structured data (distribution
and time-series shapes share this record). -/
structure AccountQuery where
  httpMode : String
  orderByMode : String
  dimensionMode : String
  filterMode : List (String × String)
  limit : Nat
  deriving DecidableEq

/-- Upstream calls a CDN request can make, carrying the query each call
sends. -/
inductive CdnCall
  | gqlTopN (q : TopnQuery)
  | fetchZones
  | gqlZone (q : ZoneQuery)
  | gqlAccount (q : AccountQuery)

/-- Response bodies the CDN handler can produce. -/
inductive CdnBody
  | errMsg (msg : String)
  | echo (payload : GqlPayload)
  | dataEmpty
  | dataDetail (rows : List (String × Int))
  | dataSeries (detail : List (Int × Int)) (metricName : String) (sum : Int)

/-- A CDN handler outcome: HTTP status, body, and the upstream calls
made, in order. -/
structure CdnResult where
  status : Nat
  body : CdnBody
  calls : List CdnCall

/-- Conversion of account-scope rows to (epoch-second, value) pairs:
ts = Math.floor(Date.parse(item.dimensions[dimensionMode]) / 1000) and
value = item.sum[config.sumid]; Math.floor of the millisecond division
is Int.fdiv by 1000. -/
def resolveRows (parse : String → Int) (dimMode sumid : String)
    (rows : List AccountRow) : List (Int × Int) :=
  rows.map (fun it => ((parse (it.dims dimMode)).fdiv 1000, it.sums sumid))

/-- Own property names of Object.prototype.  The registries are plain
object literals, so a bracket access obj[k] for k in this list finds the
inherited member — a function, or for __proto__ the prototype object —
which is truthy even though k is not an own key of the literal. -/
def protoKeys : List String :=
  ["constructor", "hasOwnProperty", "isPrototypeOf", "propertyIsEnumerable",
   "toLocaleString", "toString", "valueOf", "__defineGetter__",
   "__defineSetter__", "__lookupGetter__", "__lookupSetter__", "__proto__"]

/-- The ad-hoc zone Top-N branch after the query has been built: the
single GraphQL call, the errors check, and the unguarded reads of
zones[0].httpRequestsAdaptiveGroups, whose JS TypeError crashes land in
the outer catch and are modelled as 500 responses whose message names
the failed access. -/
def cdnTopnRespond (q : TopnQuery) (p : GqlPayload) : CdnResult :=
  if p.errorsPresent then ⟨400, CdnBody.echo p, [CdnCall.gqlTopN q]⟩
  else
    match p.zones with
    | none =>
      ⟨500, CdnBody.errMsg "Cannot read properties of undefined (reading zones)",
       [CdnCall.gqlTopN q]⟩
    | some zs =>
      match zs.head? with
      | none =>
        ⟨500,
         CdnBody.errMsg
           "Cannot read properties of undefined (reading httpRequestsAdaptiveGroups)",
         [CdnCall.gqlTopN q]⟩
      | some z =>
        match z.adaptiveGroups with
        | none =>
          ⟨500, CdnBody.errMsg "Cannot read properties of undefined (reading map)",
           [CdnCall.gqlTopN q]⟩
        | some groups =>
          ⟨200,
           CdnBody.dataDetail
             (groups.map (fun g => (g.dims q.targetField, g.count))),
           [CdnCall.gqlTopN q]⟩

/-- The GET /traffic handler of the CDN adapter, shallowly embedded.
The truthiness test if (ZONE_TOPN_CONFIG[metricParam]) also fires on
properties inherited from Object.prototype (metric=toString and the
like): the branch is then taken with targetField the inherited member,
whose template-literal string form is engine-dependent and abstracted as
the parameter protoStr.  The later METRIC_MAP[metricParam] access can no
longer see an inherited property: every Object.prototype name already
satisfied the ad-hoc check, so an own-key lookup is exact there. -/
def cdnTraffic (parse : String → Int) (toISO : Int → String)
    (protoStr : String → String) (nowMs : Int)
    (keys : CdnKeys) (req : CdnReq) (up : CdnUpstream) : CdnResult :=
  if !cdnCredsOk keys then
    ⟨401, CdnBody.errMsg "Missing credentials", []⟩
  else
    match (match req.metric with
           | none => none
           | some ms =>
             match lookupKV ZONE_TOPN_CONFIG ms with
             | some f => some f
             | none => if ms ∈ protoKeys then some (protoStr ms) else none) with
    | some targetField =>
      let timeCfg := getTimeConfig parse toISO nowMs req.startTime req.endTime
      cdnTopnRespond
        { zonetag := (truthyOr keys.zonetag ""),
          targetField := targetField,
          queryFrom := timeCfg.queryFrom, queryTo := timeCfg.queryTo } up.topn
    | none =>
      match req.metric.bind (lookupKV METRIC_MAP) with
      | none => ⟨400, CdnBody.errMsg "Invalid metric", []⟩
      | some config =>
        let timeCfg := getTimeConfig parse toISO nowMs req.startTime req.endTime
        if config.scope = "zone" then
          match up.zonesFetch with
          | Except.error msg => ⟨500, CdnBody.errMsg msg, [CdnCall.fetchZones]⟩
          | Except.ok zonesList =>
            if (zonesList.map Prod.fst).length = 0 then
              ⟨200, CdnBody.dataEmpty, [CdnCall.fetchZones]⟩
            else
              let q := buildZoneQuery timeCfg (zonesList.map Prod.fst)
              let p := up.zoneQuery
              if p.errorsPresent then
                ⟨400, CdnBody.echo p, [CdnCall.fetchZones, CdnCall.gqlZone q]⟩
              else
                let zonesData := p.zones.getD []
                let resultList := zonesData.map (fun z =>
                  (truthyOr (lookupKV zonesList z.zoneTag) z.zoneTag,
                   ((z.dataset timeCfg.datasetMode).getD []).foldl
                     (fun acc it => acc + ((it.sumAt config.sumid).getD 0)) 0))
                ⟨200, CdnBody.dataDetail (sortByValueDesc resultList),
                 [CdnCall.fetchZones, CdnCall.gqlZone q]⟩
        else
          let aq : AccountQuery :=
            if config.isDistribution then
              { httpMode := "httpRequestsOverviewAdaptiveGroups",
                orderByMode := "sum_" ++ config.sumid ++ "_DESC",
                dimensionMode := config.dimension.getD "",
                filterMode := [("datetime_geq", timeCfg.start),
                               ("datetime_leq", timeCfg.endTime)],
                limit := 100 }
            else if isFunctionMetric req.metric then
              { httpMode := "workersInvocationsAdaptive",
                orderByMode := "datetimeHour_ASC", dimensionMode := "datetimeHour",
                filterMode := timeCfg.filterObj, limit := 1000 }
            else
              { httpMode := timeCfg.datasetMode, orderByMode := timeCfg.orderBy,
                dimensionMode := timeCfg.dimensionKey,
                filterMode := timeCfg.filterObj, limit := 1000 }
          let p := up.account
          if p.errorsPresent then ⟨400, CdnBody.echo p, [CdnCall.gqlAccount aq]⟩
          else
            match p.accounts with
            | none => ⟨200, CdnBody.dataEmpty, [CdnCall.gqlAccount aq]⟩
            | some [] => ⟨200, CdnBody.dataEmpty, [CdnCall.gqlAccount aq]⟩
            | some (acc :: _) =>
              let resultData := acc.resultData.getD []
              if config.isDistribution then
                let detailData := resultData.map (fun it =>
                  (it.dims (config.dimension.getD ""), it.sums config.sumid))
                ⟨200, CdnBody.dataDetail (sortByValueDesc detailData),
                 [CdnCall.gqlAccount aq]⟩
              else
                let resolved := resolveRows parse aq.dimensionMode config.sumid resultData
                let detail := seriesDetail resolved
                ⟨200,
                 CdnBody.dataSeries
                   (finalDetail (isFunctionMetric req.metric) timeCfg.isLongTerm detail)
                   config.name (totalSum detail),
                 [CdnCall.gqlAccount aq]⟩

/-- Credentials resolved by the edge adapter getKeys. -/
structure EsaKeys where
  secretId : Option String
  secretKey : Option String

/-- The edge handler credential check !secretId || !secretKey, negated. -/
def esaCredsOk (k : EsaKeys) : Bool :=
  truthyStr k.secretId && truthyStr k.secretKey

/-- Query parameters of an edge adapter request (limitQ is the Limit
query parameter). -/
structure EsaReq where
  metric : Option String
  startTime : Option String
  endTime : Option String
  interval : Option String
  limitQ : Option String
  siteId : Option String
  deriving DecidableEq

/-- One row of an upstream DetailData array. -/
structure EsaDetailRow where
  value : Option Int
  timeStamp : Option String
  dimensionValue : String
  deriving DecidableEq

/-- One element of the upstream Data array. -/
structure EsaDataItem where
  detailData : Option (List EsaDetailRow)
  deriving DecidableEq

/-- The upstream JSON payload as far as the handler inspects it;
summarizedFirst is the optional chain SummarizedData?.[0]?.Value. -/
structure EsaPayload where
  dataItems : Option (List EsaDataItem)
  summarizedFirst : Option Int
  deriving DecidableEq

/-- Upstream oracle for the single edge API call: HTTP ok flag, status
and body text for the non-ok case, and the JSON payload otherwise. -/
structure EsaUpstream where
  ok : Bool
  statusCode : Nat
  errText : String
  payload : EsaPayload
  deriving DecidableEq

/-- JSON.stringify([{ FieldName: field, Dimension: [dimension] }]) for
the registry entry, spelled out (braces written with escapes). -/
def fieldsJson (e : EsaEntry) : String :=
  "[\x7b\"FieldName\":\"" ++ e.field ++ "\",\"Dimension\":[\"" ++ e.dimension ++ "\"]\x7d]"

/-- The flat parameter map the edge handler builds, in source order
(nonce and the two ISO timestamps are inputs: the nonce is random per
call and the timestamps come from Date.now()). -/
def esaParams (nonce nowISO yISO : String) (secretId : String) (cfg : EsaEntry)
    (req : EsaReq) : List (String × String) :=
  [("AccessKeyId", secretId),
   ("Action", cfg.action.getD ""),
   ("EndTime", truthyOr req.endTime nowISO),
   ("Fields", fieldsJson cfg),
   ("Format", "json"),
   ("Interval", truthyOr req.interval "60"),
   ("Limit", truthyOr req.limitQ "10"),
   ("Metric", cfg.dimension),
   ("SignatureMethod", "HMAC-SHA1"),
   ("SignatureNonce", nonce),
   ("SignatureVersion", "1.0"),
   ("SiteId", truthyOr req.siteId ""),
   ("StartTime", truthyOr req.startTime yISO),
   ("Timestamp", nowISO),
   ("Version", "2024-09-10")]

/-- A normalized Top-N row after the rename: DimensionValue becomes the
key, Value passes through, TimeStamp is kept only when truthy. -/
structure TopKV where
  key : String
  value : Option Int
  timeStamp : Option String
  deriving DecidableEq

/-- The Top-N branch of the edge normalizer: a plain map over the rows
of each DetailData array, preserving upstream order (no sort). -/
def mapTopRows (rows : List EsaDetailRow) : List TopKV :=
  rows.map (fun it =>
    { key := it.dimensionValue, value := it.value,
      timeStamp := if truthyStr it.timeStamp then it.timeStamp else none })

/-- The TypeValue object the edge normalizer builds for time-series
metrics; detail points are (timestamp seconds, value) pairs. -/
structure EsaTypeValue where
  metricName : String
  sum : Int
  detail : List (Int × Int)
  deriving DecidableEq

/-- Response bodies the edge handler can produce.  tsResult keeps the
untouched tail of the Data array; raw is the unmodified upstream payload
(returned when Data is absent or empty). -/
inductive EsaBody
  | errMsg (msg : String)
  | apiError (detail : String)
  | raw (p : EsaPayload)
  | tsResult (tv : EsaTypeValue) (rest : List EsaDataItem)
  | topResult (items : List (Option (List TopKV)))
  deriving DecidableEq

/-- The single upstream call an edge request can make, carrying the
parameter map it signs and sends. -/
inductive EsaCall
  | api (params : List (String × String))
  deriving DecidableEq

/-- An edge handler outcome: HTTP status, body, and the upstream calls
made. -/
structure EsaResult where
  status : Nat
  body : EsaBody
  calls : List EsaCall
  deriving DecidableEq

/-- Parameter map built when the metric hit an inherited
Object.prototype member: config is then a function (or the prototype
object), so config.action, config.field and config.dimension are all
undefined.  JSON.stringify drops the undefined FieldName property and
renders the undefined array element as null, and the query-string
serialization coerces the undefined Action and Metric values to the
string undefined. -/
def esaParamsProto (nonce nowISO yISO : String) (secretId : String)
    (req : EsaReq) : List (String × String) :=
  [("AccessKeyId", secretId),
   ("Action", "undefined"),
   ("EndTime", truthyOr req.endTime nowISO),
   ("Fields", "[\x7b\"Dimension\":[null]\x7d]"),
   ("Format", "json"),
   ("Interval", truthyOr req.interval "60"),
   ("Limit", truthyOr req.limitQ "10"),
   ("Metric", "undefined"),
   ("SignatureMethod", "HMAC-SHA1"),
   ("SignatureNonce", nonce),
   ("SignatureVersion", "1.0"),
   ("SiteId", truthyOr req.siteId ""),
   ("StartTime", truthyOr req.startTime yISO),
   ("Timestamp", nowISO),
   ("Version", "2024-09-10")]

/-- Everything the edge handler does after building the parameter map:
the single signed upstream call, the ok check, and the TS or Top-N
normalization (isTS is the test config.type === TS, false when config is
an inherited Object.prototype member). -/
def esaRespond (parse : String → Int) (metricKey : String) (isTS : Bool)
    (params : List (String × String)) (up : EsaUpstream) : EsaResult :=
  if !up.ok then
    ⟨up.statusCode, EsaBody.apiError up.errText, [EsaCall.api params]⟩
  else
    let p := up.payload
    match p.dataItems with
    | none => ⟨200, EsaBody.raw p, [EsaCall.api params]⟩
    | some [] => ⟨200, EsaBody.raw p, [EsaCall.api params]⟩
    | some (first :: rest) =>
      if isTS then
        let detailList := (first.detailData.getD []).map (fun it =>
          ((match it.timeStamp with
            | some s => if s = "" then 0 else (parse s).fdiv 1000
            | none => 0),
           it.value.getD 0))
        ⟨200,
         EsaBody.tsResult
           { metricName := metricKey,
             sum := p.summarizedFirst.getD 0,
             detail := detailList } rest,
         [EsaCall.api params]⟩
      else
        ⟨200,
         EsaBody.topResult
           ((first :: rest).map (fun di => di.detailData.map mapTopRows)),
         [EsaCall.api params]⟩

/-- The GET /traffic handler of the edge adapter, shallowly embedded.
parse stands for s => new Date(s).getTime(), nowISO and yISO for the
formatted now and now minus 24h, nonce for the random signature nonce.
The lookup METRIC_CONFIG[metricKey] also finds properties inherited
from Object.prototype (metric=toString and the like): the !config guard
then passes on the truthy inherited member and the handler proceeds —
with every config field undefined — to sign and send the request and to
run the Top-N normalization. -/
def esaTraffic (parse : String → Int) (nowISO yISO nonce : String)
    (keys : EsaKeys) (req : EsaReq) (up : EsaUpstream) : EsaResult :=
  if !esaCredsOk keys then
    ⟨500, EsaBody.errMsg "Missing credentials", []⟩
  else
    match req.metric with
    | none => ⟨400, EsaBody.errMsg "Invalid metric parameter", []⟩
    | some ms =>
      match lookupKV METRIC_CONFIG_filled ms with
      | some cfg =>
        esaRespond parse ms (cfg.type == some "TS")
          (esaParams nonce nowISO yISO (truthyOr keys.secretId "") cfg req) up
      | none =>
        if ms ∈ protoKeys then
          esaRespond parse ms false
            (esaParamsProto nonce nowISO yISO (truthyOr keys.secretId "") req) up
        else ⟨400, EsaBody.errMsg "Invalid metric parameter", []⟩

/-- Bytes of characters that encodeURIComponent leaves unescaped, minus
the asterisk (42): the signer pipes encodeURIComponent through
replace(/\x2a/g, "%2A"), so 42 is effectively escaped as well.  The
other two substitutions of the source percentEncode are identities on
encodeURIComponent output: it never emits a plus sign (byte 43 is
escaped as %2B) and never emits the sequence %7E (the tilde, byte 126,
is unescaped). -/
def unres (b : Nat) : Bool :=
  (48 ≤ b && b ≤ 57) || (65 ≤ b && b ≤ 90) || (97 ≤ b && b ≤ 122) ||
  b == 45 || b == 95 || b == 46 || b == 33 || b == 126 ||
  b == 39 || b == 40 || b == 41

/-- Uppercase hexadecimal digit byte for a value below 16. -/
def hexDigitCode (n : Nat) : Nat :=
  if n < 10 then 48 + n else 55 + n

/-- Percent-encoding of one UTF-8 byte: kept verbatim when unreserved,
otherwise the three bytes of its escape sequence (37 is the percent
sign). -/
def encByte (b : Nat) : List Nat :=
  if unres b then [b] else [37, hexDigitCode (b / 16), hexDigitCode (b % 16)]

/-- The signer percentEncode over the UTF-8 bytes of a string, as a
byte-list transformer. -/
def percentEncode (l : List Nat) : List Nat :=
  (l.map encByte).flatten

/-- JS default string comparison (code-unit lexicographic) on ASCII
byte strings, as used by Object.keys(params).sort(). -/
def lexLt : List Nat → List Nat → Bool
  | [], [] => false
  | [], _ :: _ => true
  | _ :: _, [] => false
  | a :: as_, b :: bs =>
    if a < b then true else if b < a then false else lexLt as_ bs

/-- Sorting of the parameter map by key (Object.keys(params).sort()).  -/
def sortPairs (ps : List (List Nat × List Nat)) : List (List Nat × List Nat) :=
  stableSort (fun a b => lexLt a.1 b.1) ps

/-- One encoded key=value pair: percentEncode(key) = percentEncode(value)
with 61 the equals sign. -/
def pairEnc (p : List Nat × List Nat) : List Nat :=
  percentEncode p.1 ++ 61 :: percentEncode p.2

/-- Join of encoded pairs with 38, the ampersand. -/
def joinAmp : List (List Nat) → List Nat
  | [] => []
  | [x] => x
  | x :: xs => x ++ 38 :: joinAmp xs

/-- The canonicalized query string over a parameter map given as
(key bytes, value bytes) pairs. -/
def canonicalizedQuery (ps : List (List Nat × List Nat)) : List Nat :=
  joinAmp ((sortPairs ps).map pairEnc)

/-- The string-to-sign: "GET" & percentEncode("/") &
percentEncode(canonicalizedQuery); 71 69 84 are the bytes of GET, 47
the slash. -/
def stringToSign (ps : List (List Nat × List Nat)) : List Nat :=
  [71, 69, 84, 38] ++ percentEncode [47] ++ 38 :: percentEncode (canonicalizedQuery ps)

/-- The signature: HMAC-SHA1 over the string-to-sign keyed by
secretKey + "&", base64-encoded.  The HMAC-plus-base64 primitive
(crypto.subtle plus btoa) is abstracted as the function hmac. -/
def esaSignature (hmac : List Nat → List Nat → List Nat)
    (secretKey : List Nat) (ps : List (List Nat × List Nat)) : List Nat :=
  hmac (secretKey ++ [38]) (stringToSign ps)

/-- Decoder for percent-encoded byte lists, the left inverse witnessing
injectivity of percentEncode; hexVal inverts hexDigitCode below 16. -/
def hexVal (c : Nat) : Nat :=
  if c ≤ 57 then c - 48 else c - 55

/-- Decoding walk: a percent sign opens a two-digit escape, any other
byte stands for itself; truncated escapes (never produced by the
encoder) pass through unchanged. -/
def decBytes : List Nat → List Nat
  | [] => []
  | [c] => [c]
  | [c, d] => if c = 37 then [c, d] else c :: decBytes [d]
  | c :: d :: e :: rest =>
    if c = 37 then (16 * hexVal d + hexVal e) :: decBytes rest
    else c :: decBytes (d :: e :: rest)

/-! Lemmas about the stable-sort model. -/

theorem insSorted_perm {α : Type} (bef : α → α → Bool) (x : α) :
    ∀ l : List α, (insSorted bef x l).Perm (x :: l)
  | [] => by simp [insSorted]
  | y :: ys => by
    simp only [insSorted]
    by_cases h : bef y x = true
    · rw [if_pos h]
      exact ((insSorted_perm bef x ys).cons y).trans (List.Perm.swap x y ys)
    · rw [if_neg h]

theorem stableSort_perm {α : Type} (bef : α → α → Bool) :
    ∀ l : List α, (stableSort bef l).Perm l
  | [] => by simp [stableSort]
  | x :: xs =>
    (insSorted_perm bef x (stableSort bef xs)).trans
      ((stableSort_perm bef xs).cons x)

theorem chain_insSorted {α : Type} (bef : α → α → Bool)
    (asym : ∀ a b, bef a b = true → bef b a = false) (x : α) :
    ∀ l : List α, List.Chain' (fun a b => bef b a = false) l →
      List.Chain' (fun a b => bef b a = false) (insSorted bef x l)
  | [], _ => by simp [insSorted]
  | y :: ys, h => by
    simp only [insSorted]
    by_cases hb : bef y x = true
    · rw [if_pos hb]
      rw [List.chain'_cons']
      refine ⟨?_, chain_insSorted bef asym x ys h.tail⟩
      intro b hbmem
      cases ys with
      | nil =>
        simp [insSorted] at hbmem
        subst hbmem
        exact asym y x hb
      | cons z zs =>
        simp only [insSorted] at hbmem
        by_cases hz : bef z x = true
        · rw [if_pos hz] at hbmem
          simp at hbmem
          subst hbmem
          exact (List.chain'_cons.mp h).1
        · rw [if_neg hz] at hbmem
          simp at hbmem
          subst hbmem
          exact asym y x hb
    · rw [if_neg hb]
      rw [List.chain'_cons]
      exact ⟨by simpa using hb, h⟩

theorem chain_stableSort {α : Type} (bef : α → α → Bool)
    (asym : ∀ a b, bef a b = true → bef b a = false) :
    ∀ l : List α, List.Chain' (fun a b => bef b a = false) (stableSort bef l)
  | [] => by simp [stableSort]
  | x :: xs =>
    chain_insSorted bef asym x (stableSort bef xs) (chain_stableSort bef asym xs)

theorem filter_insSorted {α κ : Type} [DecidableEq κ] (bef : α → α → Bool)
    (key : α → κ) (hkey : ∀ a b, key a = key b → bef a b = false)
    (x : α) (k : κ) :
    ∀ l : List α, (insSorted bef x l).filter (fun a => decide (key a = k)) =
      if key x = k then x :: l.filter (fun a => decide (key a = k))
      else l.filter (fun a => decide (key a = k))
  | [] => by
    by_cases h : key x = k <;> simp [insSorted, h]
  | y :: ys => by
    simp only [insSorted]
    by_cases hb : bef y x = true
    · rw [if_pos hb]
      have hrec := filter_insSorted bef key hkey x k ys
      by_cases hxk : key x = k
      · have hyk : ¬ key y = k := by
          intro hy
          have hfalse := hkey y x (hy.trans hxk.symm)
          rw [hfalse] at hb
          cases hb
        rw [if_pos hxk] at hrec ⊢
        simp [List.filter_cons, hyk, hrec]
      · rw [if_neg hxk] at hrec ⊢
        by_cases hyk : key y = k <;> simp [List.filter_cons, hyk, hrec]
    · rw [if_neg hb]
      by_cases hxk : key x = k <;> by_cases hyk : key y = k <;>
        simp [List.filter_cons, hxk, hyk]

theorem filter_stableSort {α κ : Type} [DecidableEq κ] (bef : α → α → Bool)
    (key : α → κ) (hkey : ∀ a b, key a = key b → bef a b = false) (k : κ) :
    ∀ l : List α, (stableSort bef l).filter (fun a => decide (key a = k)) =
      l.filter (fun a => decide (key a = k))
  | [] => by simp [stableSort]
  | x :: xs => by
    have hrec := filter_stableSort bef key hkey k xs
    have hins := filter_insSorted bef key hkey x k (stableSort bef xs)
    by_cases hxk : key x = k
    · rw [if_pos hxk] at hins
      simp [stableSort, hins, hrec, List.filter_cons, hxk]
    · rw [if_neg hxk] at hins
      simp [stableSort, hins, hrec, List.filter_cons, hxk]

/-! Lemmas about the accumulator-object model. -/

theorem lookupA_updateAssoc (k v k2 : Int) :
    ∀ m : List (Int × Int), lookupA (updateAssoc m k v) k2 =
      if k2 = k then some ((lookupA m k2).getD 0 + v) else lookupA m k2
  | [] => by
    by_cases h : k2 = k <;> simp [updateAssoc, lookupA, h]
  | (k1, v1) :: rest => by
    by_cases h1 : k1 = k
    · subst h1
      by_cases h2 : k2 = k1 <;> simp [updateAssoc, lookupA, h2]
    · have hrec := lookupA_updateAssoc k v k2 rest
      by_cases h2 : k2 = k1
      · subst h2
        simp [updateAssoc, lookupA, h1, Ne.symm h1]
      · simp [updateAssoc, lookupA, h1, h2, hrec]

theorem fst_mem_updateAssoc (k v a : Int) :
    ∀ m : List (Int × Int),
      a ∈ (updateAssoc m k v).map Prod.fst ↔ a ∈ m.map Prod.fst ∨ a = k
  | [] => by simp [updateAssoc]
  | (k1, v1) :: rest => by
    by_cases h1 : k1 = k
    · subst h1
      simp only [updateAssoc, if_pos rfl]
      constructor
      · intro h
        exact Or.inl h
      · intro h
        rcases h with h | h
        · exact h
        · subst h
          simp
    · have hrec := fst_mem_updateAssoc k v a rest
      simp only [updateAssoc, if_neg h1]
      simp only [List.map_cons, List.mem_cons] at *
      tauto

theorem nodup_updateAssoc (k v : Int) :
    ∀ m : List (Int × Int), (m.map Prod.fst).Nodup →
      ((updateAssoc m k v).map Prod.fst).Nodup
  | [], _ => by simp [updateAssoc]
  | (k1, v1) :: rest, h => by
    by_cases h1 : k1 = k
    · subst h1
      simpa [updateAssoc] using h
    · simp only [updateAssoc, if_neg h1]
      simp only [List.map_cons, List.nodup_cons] at h ⊢
      refine ⟨?_, nodup_updateAssoc k v rest h.2⟩
      intro hmem
      rcases (fst_mem_updateAssoc k v k1 rest).mp hmem with hmem2 | hmem2
      · exact h.1 hmem2
      · exact h1 hmem2

theorem sumAtKey_nil (k : Int) : sumAtKey k [] = 0 := rfl

theorem sumAtKey_cons (k k1 v1 : Int) (rs : List (Int × Int)) :
    sumAtKey k ((k1, v1) :: rs) =
      if k1 = k then v1 + sumAtKey k rs else sumAtKey k rs := by
  by_cases h : k1 = k <;> simp [sumAtKey, List.filter_cons, h]

theorem sumAtKey_eq_zero (k : Int) :
    ∀ rs : List (Int × Int), k ∉ rs.map Prod.fst → sumAtKey k rs = 0
  | [], _ => rfl
  | (k1, v1) :: rest, h => by
    simp only [List.map_cons, List.mem_cons] at h
    push_neg at h
    rw [sumAtKey_cons, if_neg (fun he => h.1 he.symm)]
    exact sumAtKey_eq_zero k rest h.2

theorem lookupA_buildMergedAux (k : Int) :
    ∀ (rs m : List (Int × Int)),
      lookupA (buildMergedAux m rs) k =
        if k ∈ rs.map Prod.fst then some ((lookupA m k).getD 0 + sumAtKey k rs)
        else lookupA m k
  | [], m => by simp [buildMergedAux]
  | (k1, v1) :: rs2, m => by
    have hrec := lookupA_buildMergedAux k rs2 (updateAssoc m k1 v1)
    have hupd := lookupA_updateAssoc k1 v1 k m
    simp only [buildMergedAux]
    rw [hrec]
    by_cases h1 : k = k1
    · subst h1
      rw [if_pos rfl] at hupd
      rw [hupd]
      by_cases h2 : k ∈ rs2.map Prod.fst
      · rw [if_pos h2,
          if_pos (show k ∈ ((k, v1) :: rs2).map Prod.fst by simp)]
        rw [sumAtKey_cons, if_pos rfl]
        simp only [Option.getD_some]
        congr 1
        omega
      · rw [if_neg h2,
          if_pos (show k ∈ ((k, v1) :: rs2).map Prod.fst by simp)]
        rw [sumAtKey_cons, if_pos rfl, sumAtKey_eq_zero k rs2 h2]
        congr 1
        omega
    · rw [if_neg h1] at hupd
      rw [hupd]
      by_cases h2 : k ∈ rs2.map Prod.fst
      · rw [if_pos h2,
          if_pos (show k ∈ ((k1, v1) :: rs2).map Prod.fst by simp [h2])]
        rw [sumAtKey_cons, if_neg (fun he => h1 he.symm)]
      · rw [if_neg h2,
          if_neg (show k ∉ ((k1, v1) :: rs2).map Prod.fst by
            simp only [List.map_cons, List.mem_cons, not_or]
            exact ⟨h1, h2⟩)]

theorem lookupA_buildMerged (k : Int) (rs : List (Int × Int)) :
    lookupA (buildMerged rs) k =
      if k ∈ rs.map Prod.fst then some (sumAtKey k rs) else none := by
  rw [buildMerged, lookupA_buildMergedAux]
  by_cases h : k ∈ rs.map Prod.fst
  · rw [if_pos h, if_pos h]
    simp [lookupA]
  · rw [if_neg h, if_neg h]
    rfl

theorem fst_mem_buildMergedAux (a : Int) :
    ∀ (rs m : List (Int × Int)),
      a ∈ (buildMergedAux m rs).map Prod.fst ↔
        a ∈ m.map Prod.fst ∨ a ∈ rs.map Prod.fst
  | [], m => by simp [buildMergedAux]
  | (k1, v1) :: rs2, m => by
    have hrec := fst_mem_buildMergedAux a rs2 (updateAssoc m k1 v1)
    have hupd := fst_mem_updateAssoc k1 v1 a m
    simp only [buildMergedAux] at *
    rw [hrec, hupd]
    simp only [List.map_cons, List.mem_cons]
    tauto

theorem nodup_buildMergedAux :
    ∀ (rs m : List (Int × Int)), (m.map Prod.fst).Nodup →
      ((buildMergedAux m rs).map Prod.fst).Nodup
  | [], m, h => h
  | (k1, v1) :: rs2, m, h =>
    nodup_buildMergedAux rs2 (updateAssoc m k1 v1) (nodup_updateAssoc k1 v1 m h)

theorem nodup_buildMerged (rs : List (Int × Int)) :
    ((buildMerged rs).map Prod.fst).Nodup :=
  nodup_buildMergedAux rs [] (by simp)

theorem mem_of_lookupA (k v : Int) :
    ∀ l : List (Int × Int), lookupA l k = some v → (k, v) ∈ l
  | (k1, v1) :: rest, h => by
    by_cases h1 : k = k1
    · subst h1
      simp [lookupA] at h
      simp [h]
    · simp [lookupA, h1] at h
      exact List.mem_cons_of_mem _ (mem_of_lookupA k v rest h)

theorem lookupA_of_mem_nodup (k v : Int) :
    ∀ l : List (Int × Int), (l.map Prod.fst).Nodup → (k, v) ∈ l →
      lookupA l k = some v
  | (k1, v1) :: rest, hnd, hmem => by
    simp only [List.map_cons, List.nodup_cons] at hnd
    rcases List.mem_cons.mp hmem with he | hmem2
    · rw [Prod.mk.injEq] at he
      simp [lookupA, he.1, he.2]
    · have hne : ¬ k = k1 := by
        intro he
        subst he
        exact hnd.1 (List.mem_map.mpr ⟨(k, v), hmem2, rfl⟩)
      simp [lookupA, hne]
      exact lookupA_of_mem_nodup k v rest hnd.2 hmem2

theorem snd_sum_updateAssoc (k v : Int) :
    ∀ m : List (Int × Int),
      ((updateAssoc m k v).map Prod.snd).sum = (m.map Prod.snd).sum + v
  | [] => by simp [updateAssoc]
  | (k1, v1) :: rest => by
    by_cases h1 : k1 = k
    · simp [updateAssoc, h1]
      omega
    · have hrec := snd_sum_updateAssoc k v rest
      simp [updateAssoc, h1, hrec]
      omega

theorem snd_sum_buildMergedAux :
    ∀ (rs m : List (Int × Int)),
      ((buildMergedAux m rs).map Prod.snd).sum =
        (m.map Prod.snd).sum + (rs.map Prod.snd).sum
  | [], m => by simp [buildMergedAux]
  | (k1, v1) :: rs2, m => by
    have hrec := snd_sum_buildMergedAux rs2 (updateAssoc m k1 v1)
    simp only [buildMergedAux] at *
    rw [hrec, snd_sum_updateAssoc]
    simp
    omega

theorem snd_sum_buildMerged (rs : List (Int × Int)) :
    ((buildMerged rs).map Prod.snd).sum = (rs.map Prod.snd).sum := by
  have h := snd_sum_buildMergedAux rs []
  simpa [buildMerged] using h

theorem totalSum_eq_sum :
    ∀ l : List (Int × Int), totalSum l = (l.map Prod.snd).sum := by
  have haux : ∀ (l : List (Int × Int)) (a : Int),
      l.foldl (fun acc c => acc + c.2) a = a + (l.map Prod.snd).sum := by
    intro l
    induction l with
    | nil => intro a; simp
    | cons x xs ih =>
      intro a
      simp only [List.foldl_cons, List.map_cons, List.sum_cons, ih]
      omega
  intro l
  simpa [totalSum] using haux l 0

theorem mem_of_lookupKV {β : Type} (k : String) (v : β) :
    ∀ l : List (String × β), lookupKV l k = some v → (k, v) ∈ l
  | [], h => by simp [lookupKV] at h
  | (k1, v1) :: rest, h => by
    by_cases h1 : k = k1
    · subst h1
      simp [lookupKV] at h
      simp [h]
    · simp [lookupKV, h1] at h
      exact List.mem_cons_of_mem _ (mem_of_lookupKV k v rest h)

theorem metricMap_not_proto (m : String) (e : MetricEntry)
    (h : lookupKV METRIC_MAP m = some e) : m ∉ protoKeys := by
  have hmem := mem_of_lookupKV m e _ h
  have hall : ∀ p ∈ METRIC_MAP, (p : String × MetricEntry).1 ∉ protoKeys := by
    decide
  exact hall _ hmem

theorem cdnTopnRespond_calls (q : TopnQuery) (p : GqlPayload) :
    (cdnTopnRespond q p).calls = [CdnCall.gqlTopN q] := by
  rw [cdnTopnRespond]
  by_cases he : p.errorsPresent = true
  · rw [if_pos he]
  · rw [if_neg he]
    cases p.zones with
    | none => rfl
    | some zs =>
      cases zs with
      | nil => rfl
      | cons z rest =>
        obtain ⟨ztag, zag, zds⟩ := z
        cases zag <;> rfl

theorem cdnTopnRespond_body_ne (q : TopnQuery) (p : GqlPayload) :
    (cdnTopnRespond q p).body ≠ CdnBody.errMsg "Invalid metric" := by
  rw [cdnTopnRespond]
  by_cases he : p.errorsPresent = true
  · rw [if_pos he]
    intro hbody
    cases hbody
  · rw [if_neg he]
    cases p.zones with
    | none =>
      intro hbody
      injection hbody with hs
      exact absurd hs (by decide)
    | some zs =>
      cases zs with
      | nil =>
        intro hbody
        injection hbody with hs
        exact absurd hs (by decide)
      | cons z rest =>
        obtain ⟨ztag, zag, zds⟩ := z
        cases zag with
        | none =>
          intro hbody
          injection hbody with hs
          exact absurd hs (by decide)
        | some groups =>
          intro hbody
          cases hbody

theorem esaRespond_calls (parse : String → Int) (metricKey : String)
    (isTS : Bool) (params : List (String × String)) (up : EsaUpstream) :
    (esaRespond parse metricKey isTS params up).calls = [EsaCall.api params] := by
  by_cases ho : up.ok = true
  · simp only [esaRespond, ho]
    cases up.payload.dataItems with
    | none => simp
    | some items =>
      cases items with
      | nil => simp
      | cons first rest =>
        by_cases ht : isTS = true
        · simp [ht]
        · simp [ht]
  · simp [esaRespond, ho]

theorem esaRespond_body_ne (parse : String → Int) (metricKey : String)
    (isTS : Bool) (params : List (String × String)) (up : EsaUpstream)
    (s : String) :
    (esaRespond parse metricKey isTS params up).body ≠ EsaBody.errMsg s := by
  by_cases ho : up.ok = true
  · simp only [esaRespond, ho]
    cases up.payload.dataItems with
    | none => simp
    | some items =>
      cases items with
      | nil => simp
      | cons first rest =>
        by_cases ht : isTS = true
        · simp [ht]
        · simp [ht]
  · simp [esaRespond, ho]

theorem chain_lt_of_le_nodup :
    ∀ l : List (Int × Int),
      List.Chain' (fun a b : Int × Int => decide (b.1 < a.1) = false) l →
      (l.map Prod.fst).Nodup →
      List.Chain' (fun a b : Int × Int => a.1 < b.1) l
  | [], _, _ => List.chain'_nil
  | [_], _, _ => List.chain'_singleton _
  | a :: b :: l, hc, hnd => by
    rw [List.chain'_cons] at hc ⊢
    refine ⟨?_, chain_lt_of_le_nodup (b :: l) hc.2 ?_⟩
    · have hle : ¬ b.1 < a.1 := by simpa using hc.1
      have hne : a.1 ≠ b.1 := by
        simp only [List.map_cons, List.nodup_cons, List.mem_cons] at hnd
        intro he
        exact hnd.1 (Or.inl he)
      omega
    · simp only [List.map_cons, List.nodup_cons] at hnd ⊢
      exact ⟨hnd.2.1, hnd.2.2⟩

theorem seriesDetail_mem_spec (R : List (Int × Int)) :
    ∀ p ∈ seriesDetail R, p.2 = sumAtKey p.1 R ∧ p.1 ∈ R.map Prod.fst := by
  intro p hp
  have hmem : (p.1, p.2) ∈ buildMerged R :=
    ((stableSort_perm _ (buildMerged R)).mem_iff).mp hp
  have hlook := lookupA_of_mem_nodup p.1 p.2 (buildMerged R) (nodup_buildMerged R) hmem
  rw [lookupA_buildMerged] at hlook
  by_cases hin : p.1 ∈ R.map Prod.fst
  · rw [if_pos hin] at hlook
    exact ⟨(Option.some.injEq _ _ ▸ hlook).symm, hin⟩
  · rw [if_neg hin] at hlook
    cases hlook

theorem seriesDetail_mem_of_key (R : List (Int × Int)) :
    ∀ t ∈ R.map Prod.fst, (t, sumAtKey t R) ∈ seriesDetail R := by
  intro t ht
  have hlook : lookupA (buildMerged R) t = some (sumAtKey t R) := by
    rw [lookupA_buildMerged, if_pos ht]
  exact ((stableSort_perm _ (buildMerged R)).mem_iff).mpr
    (mem_of_lookupA t _ _ hlook)

theorem seriesDetail_chain (R : List (Int × Int)) :
    List.Chain' (fun a b : Int × Int => a.1 < b.1) (seriesDetail R) := by
  apply chain_lt_of_le_nodup
  · exact chain_stableSort _ (fun a b h => by simp at h ⊢; omega) _
  · have hperm :=
      (stableSort_perm (fun a b : Int × Int => decide (a.1 < b.1))
        (buildMerged R)).map Prod.fst
    exact (hperm.nodup_iff).mpr (nodup_buildMerged R)

/-! Claim theorems. -/

/-- C1: in getTimeConfig, an omitted (or empty) bound defaults to
end = now and start = now minus 24 hours; isLongTerm holds exactly when
now minus the parsed start exceeds three days (computed from now, not
from the resolved end, whose value the formula does not mention); when
long-term, both bounds are truncated to date-only strings and the
day-grouped dataset with inclusive date_geq/date_leq filters is
selected; otherwise the bounds keep full precision and the hour-grouped
dataset with inclusive datetime_geq/datetime_leq filters is selected. -/
theorem C1_timeWindowResolver (parse : String → Int) (toISO : Int → String)
    (nowMs : Int) (rs re : Option String) (cfg : TimeConfig)
    (hc : cfg = getTimeConfig parse toISO nowMs rs re) :
    ((rs = none ∨ rs = some "") → cfg.start = toISO (nowMs - 86400000)) ∧
    ((re = none ∨ re = some "") → cfg.endTime = toISO nowMs) ∧
    (cfg.isLongTerm = decide (nowMs - parse cfg.start > 259200000)) ∧
    (cfg.isLongTerm = true →
      cfg.queryFrom = slice10 cfg.start ∧ cfg.queryTo = slice10 cfg.endTime ∧
      cfg.datasetMode = "httpRequests1dGroups" ∧
      cfg.dimensionKey = "date" ∧
      cfg.filterObj = [("date_geq", cfg.queryFrom), ("date_leq", cfg.queryTo)]) ∧
    (cfg.isLongTerm = false →
      cfg.queryFrom = cfg.start ∧ cfg.queryTo = cfg.endTime ∧
      cfg.datasetMode = "httpRequests1hGroups" ∧
      cfg.dimensionKey = "datetime" ∧
      cfg.filterObj =
        [("datetime_geq", cfg.queryFrom), ("datetime_leq", cfg.queryTo)]) := by
  subst hc
  have h24 : (24 * 60 * 60 * 1000 : Int) = 86400000 := by norm_num
  have h3 : (259200000 : Int) = 3 * 24 * 60 * 60 * 1000 := by norm_num
  simp only [getTimeConfig, h24]
  rw [h3]
  split
  case isTrue h =>
    refine ⟨?_, ?_, ?_, ?_, ?_⟩
    · rintro (rfl | rfl) <;> simp [truthyOr]
    · rintro (rfl | rfl) <;> simp [truthyOr]
    · exact (decide_eq_true h).symm
    · intro _h
      exact ⟨rfl, rfl, rfl, rfl, rfl⟩
    · intro hfalse
      cases hfalse
  case isFalse h =>
    refine ⟨?_, ?_, ?_, ?_, ?_⟩
    · rintro (rfl | rfl) <;> simp [truthyOr]
    · rintro (rfl | rfl) <;> simp [truthyOr]
    · exact (decide_eq_false h).symm
    · intro hfalse
      cases hfalse
    · intro _h
      exact ⟨rfl, rfl, rfl, rfl, rfl⟩

/-- Witness for C1 at a concrete long-term input. -/
theorem C1_timeWindowResolver_witness :
    (getTimeConfig (fun _ => 0) (fun _ => "X") 300000000 none
        (some "2024-01-02T03:04:05Z")).isLongTerm =
      decide ((300000000 : Int) - 0 > 259200000) :=
  (C1_timeWindowResolver (fun _ => 0) (fun _ => "X") 300000000 none
    (some "2024-01-02T03:04:05Z") _ rfl).2.2.1

/-- C2: the account-scope time-series normalization converts each row to
an epoch-second timestamp, merges rows sharing a timestamp by summing
their values, and sorts strictly ascending by timestamp: the output is a
strictly increasing point list in which every point carries the sum of
all input rows resolving to its timestamp, and every resolved input
timestamp appears. -/
theorem C2_seriesMerge (parse : String → Int) (dimMode sumid : String)
    (rows : List AccountRow) :
    List.Chain' (fun a b : Int × Int => a.1 < b.1)
      (seriesDetail (resolveRows parse dimMode sumid rows)) ∧
    (∀ p ∈ seriesDetail (resolveRows parse dimMode sumid rows),
      p.2 = sumAtKey p.1 (resolveRows parse dimMode sumid rows) ∧
      p.1 ∈ (resolveRows parse dimMode sumid rows).map Prod.fst) ∧
    (∀ t ∈ (resolveRows parse dimMode sumid rows).map Prod.fst,
      (t, sumAtKey t (resolveRows parse dimMode sumid rows)) ∈
        seriesDetail (resolveRows parse dimMode sumid rows)) :=
  ⟨seriesDetail_chain _, seriesDetail_mem_spec _, seriesDetail_mem_of_key _⟩

/-- Witness for C2: two rows at the same second with values 3 and 5
merge into the single point (1, 8). -/
theorem C2_seriesMerge_witness :
    seriesDetail (resolveRows (fun _ => 1000) "dt" "v"
        [{ dims := fun _ => "a", sums := fun _ => 3 },
         { dims := fun _ => "b", sums := fun _ => 5 }]) = [(1, 8)] ∧
    List.Chain' (fun a b : Int × Int => a.1 < b.1)
      (seriesDetail (resolveRows (fun _ => 1000) "dt" "v"
        [{ dims := fun _ => "a", sums := fun _ => 3 },
         { dims := fun _ => "b", sums := fun _ => 5 }])) :=
  ⟨rfl,
   (C2_seriesMerge (fun _ => 1000) "dt" "v"
     [{ dims := fun _ => "a", sums := fun _ => 3 },
      { dims := fun _ => "b", sums := fun _ => 5 }]).1⟩

/-- C3: the daily rollup applies exactly to function metrics under a
long-term window; it re-keys every point by its UTC day and re-sums per
day, every output point sits at 00:00 UTC of its day (a multiple of
86400 seconds) and carries the per-day sum, the rollup preserves the
total, and the reported Sum over the pre-rollup detail equals the total
of whatever final detail is returned. -/
theorem C3_dailyRollup (m : Option String) (lt : Bool)
    (detail : List (Int × Int)) :
    (¬ (isFunctionMetric m = true ∧ lt = true) →
      finalDetail (isFunctionMetric m) lt detail = detail) ∧
    (isFunctionMetric m = true ∧ lt = true →
      finalDetail (isFunctionMetric m) lt detail = rollupDaily detail) ∧
    (∀ p ∈ rollupDaily detail, ∃ d : Int, p.1 = 86400 * d ∧
      d ∈ detail.map (fun q => q.1.fdiv 86400) ∧
      p.2 = sumAtKey d (detail.map (fun q => (q.1.fdiv 86400, q.2)))) ∧
    (totalSum (rollupDaily detail) = totalSum detail) ∧
    (totalSum (finalDetail (isFunctionMetric m) lt detail) = totalSum detail) ∧
    (∀ (parse : String → Int) (toISO : Int → String) (protoStr : String → String)
        (nowMs : Int)
        (keys : CdnKeys) (req : CdnReq) (up : CdnUpstream)
        (config : MetricEntry) (acc : GqlAccount) (accs : List GqlAccount)
        (m2 : String),
      cdnCredsOk keys = true → req.metric = some m2 →
      lookupKV ZONE_TOPN_CONFIG m2 = none →
      lookupKV METRIC_MAP m2 = some config → config.scope ≠ "zone" →
      config.isDistribution = false →
      up.account.errorsPresent = false →
      up.account.accounts = some (acc :: accs) →
      (cdnTraffic parse toISO protoStr nowMs keys req up).body =
        CdnBody.dataSeries
          (finalDetail (isFunctionMetric req.metric)
            (getTimeConfig parse toISO nowMs req.startTime req.endTime).isLongTerm
            (seriesDetail (resolveRows parse
              (if isFunctionMetric req.metric = true then "datetimeHour"
               else (getTimeConfig parse toISO nowMs req.startTime
                  req.endTime).dimensionKey)
              config.sumid (acc.resultData.getD []))))
          config.name
          (totalSum (seriesDetail (resolveRows parse
            (if isFunctionMetric req.metric = true then "datetimeHour"
             else (getTimeConfig parse toISO nowMs req.startTime
                req.endTime).dimensionKey)
            config.sumid (acc.resultData.getD []))))) := by
  have hroll : totalSum (rollupDaily detail) = totalSum detail := by
    rw [totalSum_eq_sum, totalSum_eq_sum]
    simp only [rollupDaily, sortTsAsc]
    rw [List.map_map]
    have hsnd : (Prod.snd ∘ fun e : Int × Int => (86400 * e.1, e.2)) = Prod.snd := by
      funext e
      rfl
    rw [hsnd]
    have hperm :=
      (stableSort_perm (fun a b : Int × Int => decide (a.1 < b.1))
        (buildMerged (detail.map (fun p => (p.1.fdiv 86400, p.2))))).map Prod.snd
    rw [hperm.sum_eq, snd_sum_buildMerged, List.map_map]
    have hsnd2 :
        (Prod.snd ∘ fun p : Int × Int => (p.1.fdiv 86400, p.2)) = Prod.snd := by
      funext p
      rfl
    rw [hsnd2]
  refine ⟨?_, ?_, ?_, hroll, ?_, ?_⟩
  · intro hnot
    have hband : (isFunctionMetric m && lt) = false := by
      cases hf : isFunctionMetric m with
      | false => simp
      | true =>
        cases hl : lt with
        | false => simp
        | true => exact absurd ⟨hf, hl⟩ hnot
    simp [finalDetail, hband]
  · rintro ⟨hf, hl⟩
    simp [finalDetail, hf, hl]
  · intro p hp
    simp only [rollupDaily] at hp
    rcases List.mem_map.mp hp with ⟨e, he, hpe⟩
    have hspec := seriesDetail_mem_spec _ e he
    refine ⟨e.1, ?_, ?_, ?_⟩
    · rw [← hpe]
    · have hmem := hspec.2
      rw [List.map_map] at hmem
      simpa using hmem
    · rw [← hpe]
      exact hspec.1
  · cases hb : (isFunctionMetric m && lt) with
    | false => simp [finalDetail, hb]
    | true => simp [finalDetail, hb, hroll]
  · intro parse toISO protoStr nowMs keys req up config acc accs m2 hcreds hm
      htopn hmap hscope hdist herr haccs
    have hproto := metricMap_not_proto m2 config hmap
    by_cases hf : isFunctionMetric (some m2) = true <;>
      simp [cdnTraffic, hcreds, hm, htopn, hmap, hscope, hdist, herr, haccs, hf,
        hproto]

/-- Witness for C3: hourly points 2 at 00:00 and 3 at 01:00 of one UTC
day roll up to the single point (0, 5), and the rollup preserves the
total. -/
theorem C3_dailyRollup_witness :
    finalDetail (isFunctionMetric (some "function_requestCount")) true
        [(0, 2), (3600, 3)] = [(0, 5)] ∧
    totalSum (rollupDaily [(0, 2), (3600, 3)]) = totalSum [(0, 2), (3600, 3)] :=
  ⟨by decide,
   (C3_dailyRollup (some "function_requestCount") true [(0, 2), (3600, 3)]).2.2.2.1⟩

/-- C4 counterexample: in the edge registry the resolved descriptor for
the time-series metric l7Flow_flux carries the dimension string ALL even
though its kind is TS, so a dimension is present on a non-Distribution
descriptor, contradicting the claim that time-series descriptors carry
no dimension. -/
theorem C4_counterexample :
    lookupKV METRIC_CONFIG_filled "l7Flow_flux" =
      some { action := some "DescribeSiteTimeSeriesData", field := "Traffic",
             dimension := "ALL", type := some "TS" } ∧
    ("ALL" : String) ≠ "" := by
  exact ⟨rfl, by decide⟩

/-- C4 amended: in the CDN registry a dimension is present exactly on
distribution descriptors; in the edge registry every descriptor carries
a dimension string, and it is the sentinel ALL exactly on time-series
descriptors (so a genuine grouping dimension appears exactly on Top-N
descriptors). -/
theorem C4_registryDimension :
    (∀ k e, lookupKV METRIC_MAP k = some e →
      (e.dimension.isSome ↔ e.isDistribution = true)) ∧
    (∀ k e, lookupKV METRIC_CONFIG_filled k = some e →
      ((e.dimension = "ALL") ↔ e.type = some "TS")) := by
  constructor
  · intro k e h
    have hall : ∀ p ∈ METRIC_MAP,
        ((p : String × MetricEntry).2.dimension.isSome ↔
          p.2.isDistribution = true) := by decide
    exact hall _ (mem_of_lookupKV k e _ h)
  · intro k e h
    have hall : ∀ p ∈ METRIC_CONFIG_filled,
        ((p : String × EsaEntry).2.dimension = "ALL" ↔
          p.2.type = some "TS") := by decide
    exact hall _ (mem_of_lookupKV k e _ h)

/-- Witness for C4 at the CDN entry l7Flow_flux. -/
theorem C4_registryDimension_witness :
    (({ name := "l7Flow_flux", sumid := "bytes",
        scope := "account" } : MetricEntry).dimension.isSome ↔
      ({ name := "l7Flow_flux", sumid := "bytes",
         scope := "account" } : MetricEntry).isDistribution = true) :=
  C4_registryDimension.1 "l7Flow_flux" _ rfl

/-! Lemmas about the request signer: percent-encoding is injective on
byte lists (witnessed by the decoder decBytes), the canonicalized query
is injective in the parameter values for a fixed key list, and hence so
is the string-to-sign. -/

theorem unres_facts (b : Nat) (h : unres b = true) : b ≠ 37 ∧ b ≠ 38 ∧ b ≠ 61 := by
  simp only [unres, Bool.or_eq_true, Bool.and_eq_true, decide_eq_true_eq,
    beq_iff_eq] at h
  omega

theorem hexVal_hexDigitCode (n : Nat) (h : n < 16) :
    hexVal (hexDigitCode n) = n := by
  by_cases h10 : n < 10
  · rw [hexDigitCode, if_pos h10, hexVal, if_pos (by omega)]
    omega
  · rw [hexDigitCode, if_neg h10, hexVal, if_neg (by omega)]
    omega

theorem hexDigitCode_facts (n : Nat) (h : n < 16) :
    hexDigitCode n ≠ 37 ∧ hexDigitCode n ≠ 38 ∧ hexDigitCode n ≠ 61 ∧
      hexDigitCode n < 256 := by
  rw [hexDigitCode]
  split <;> refine ⟨by omega, by omega, by omega, by omega⟩

theorem mem_encByte_facts (b c : Nat) (hb : b < 256) (hc : c ∈ encByte b) :
    c ≠ 38 ∧ c ≠ 61 ∧ c < 256 := by
  rw [encByte] at hc
  by_cases hu : unres b = true
  · rw [if_pos hu] at hc
    simp at hc
    rw [hc]
    obtain ⟨_, h38, h61⟩ := unres_facts b hu
    exact ⟨h38, h61, hb⟩
  · rw [if_neg hu] at hc
    simp at hc
    rcases hc with rfl | rfl | rfl
    · exact ⟨by decide, by decide, by decide⟩
    · have hf := hexDigitCode_facts (b / 16) (by omega)
      exact ⟨hf.2.1, hf.2.2.1, hf.2.2.2⟩
    · have hf := hexDigitCode_facts (b % 16) (by omega)
      exact ⟨hf.2.1, hf.2.2.1, hf.2.2.2⟩

theorem decBytes_cons_ne (c : Nat) (rest : List Nat) (h : ¬ c = 37) :
    decBytes (c :: rest) = c :: decBytes rest := by
  match rest with
  | [] => rfl
  | [d] =>
    show (if c = 37 then [c, d] else c :: decBytes [d]) = c :: decBytes [d]
    rw [if_neg h]
  | d :: e :: r =>
    show (if c = 37 then (16 * hexVal d + hexVal e) :: decBytes r
          else c :: decBytes (d :: e :: r)) = c :: decBytes (d :: e :: r)
    rw [if_neg h]

theorem decBytes_esc (d1 d2 : Nat) (r : List Nat) :
    decBytes (37 :: d1 :: d2 :: r) = (16 * hexVal d1 + hexVal d2) :: decBytes r :=
  rfl

theorem decBytes_encByte (b : Nat) (hb : b < 256) (rest : List Nat) :
    decBytes (encByte b ++ rest) = b :: decBytes rest := by
  rw [encByte]
  by_cases hu : unres b = true
  · rw [if_pos hu]
    exact decBytes_cons_ne b rest (unres_facts b hu).1
  · rw [if_neg hu]
    simp only [List.cons_append, List.nil_append]
    rw [decBytes_esc, hexVal_hexDigitCode _ (by omega),
      hexVal_hexDigitCode _ (by omega)]
    congr 1
    omega

theorem decBytes_percentEncode (rest : List Nat) :
    ∀ l : List Nat, (∀ b ∈ l, b < 256) →
      decBytes (percentEncode l ++ rest) = l ++ decBytes rest
  | [], _ => by simp [percentEncode]
  | b :: l2, h => by
    have hb : b < 256 := h b (List.mem_cons_self b l2)
    have hl2 : ∀ x ∈ l2, x < 256 := fun x hx => h x (List.mem_cons_of_mem _ hx)
    have hrec := decBytes_percentEncode rest l2 hl2
    simp only [percentEncode, List.map_cons, List.flatten_cons,
      List.append_assoc] at *
    rw [decBytes_encByte b hb, hrec]
    simp

theorem percentEncode_inj (l1 l2 : List Nat) (h1 : ∀ b ∈ l1, b < 256)
    (h2 : ∀ b ∈ l2, b < 256) (he : percentEncode l1 = percentEncode l2) :
    l1 = l2 := by
  have e1 := decBytes_percentEncode [] l1 h1
  have e2 := decBytes_percentEncode [] l2 h2
  rw [show decBytes ([] : List Nat) = [] from rfl, List.append_nil,
    List.append_nil] at e1 e2
  rw [← e1, ← e2, he]

theorem mem_percentEncode_facts (l : List Nat) (hl : ∀ b ∈ l, b < 256) :
    ∀ c ∈ percentEncode l, c ≠ 38 ∧ c ≠ 61 ∧ c < 256 := by
  intro c hc
  simp only [percentEncode, List.mem_flatten, List.mem_map] at hc
  rcases hc with ⟨x, ⟨b, hb, rfl⟩, hcx⟩
  exact mem_encByte_facts b c (hl b hb) hcx

theorem append_sep_inj (sep : Nat) :
    ∀ (a b u v : List Nat), sep ∉ a → sep ∉ b →
      a ++ sep :: u = b ++ sep :: v → a = b ∧ u = v
  | [], [], u, v, _, _, h => ⟨rfl, by simpa using h⟩
  | [], c :: b2, u, v, _, hb, h => by
    rw [List.nil_append, List.cons_append] at h
    injection h with h1 h2
    exact absurd (show sep ∈ c :: b2 by rw [h1]; exact List.mem_cons_self c b2) hb
  | a1 :: a2, [], u, v, ha, _, h => by
    rw [List.cons_append, List.nil_append] at h
    injection h with h1 h2
    exact absurd (show sep ∈ a1 :: a2 by rw [← h1]; exact List.mem_cons_self a1 a2) ha
  | a1 :: a2, b1 :: b2, u, v, ha, hb, h => by
    rw [List.cons_append, List.cons_append] at h
    injection h with h1 h2
    have ha2 : sep ∉ a2 := fun hx => ha (List.mem_cons_of_mem _ hx)
    have hb2 : sep ∉ b2 := fun hx => hb (List.mem_cons_of_mem _ hx)
    obtain ⟨e1, e2⟩ := append_sep_inj sep a2 b2 u v ha2 hb2 h2
    exact ⟨by rw [h1, e1], e2⟩

theorem joinAmp_inj :
    ∀ (l1 l2 : List (List Nat)), l1.length = l2.length →
      (∀ x ∈ l1, (38 : Nat) ∉ x) → (∀ x ∈ l2, (38 : Nat) ∉ x) →
      joinAmp l1 = joinAmp l2 → l1 = l2
  | [], [], _, _, _, _ => rfl
  | [], _ :: _, hl, _, _, _ => by
    simp only [List.length_nil, List.length_cons] at hl
    omega
  | _ :: _, [], hl, _, _, _ => by
    simp only [List.length_nil, List.length_cons] at hl
    omega
  | [x], [y], _, _, _, h => by
    have h' : x = y := h
    rw [h']
  | [x], y1 :: y2 :: ys, hl, _, _, _ => by
    simp only [List.length_cons, List.length_nil] at hl
    omega
  | x1 :: x2 :: xs, [y], hl, _, _, _ => by
    simp only [List.length_cons, List.length_nil] at hl
    omega
  | x1 :: x2 :: xs, y1 :: y2 :: ys, hl, hx, hy, h => by
    have h' : x1 ++ 38 :: joinAmp (x2 :: xs) = y1 ++ 38 :: joinAmp (y2 :: ys) := h
    obtain ⟨e1, e2⟩ := append_sep_inj 38 x1 y1 _ _
      (hx x1 (List.mem_cons_self _ _)) (hy y1 (List.mem_cons_self _ _)) h'
    have hl2 : (x2 :: xs).length = (y2 :: ys).length := by
      simp only [List.length_cons] at hl ⊢
      omega
    have hx2 : ∀ z ∈ x2 :: xs, (38 : Nat) ∉ z :=
      fun z hmem => hx z (List.mem_cons_of_mem _ hmem)
    have hy2 : ∀ z ∈ y2 :: ys, (38 : Nat) ∉ z :=
      fun z hmem => hy z (List.mem_cons_of_mem _ hmem)
    rw [e1, joinAmp_inj (x2 :: xs) (y2 :: ys) hl2 hx2 hy2 e2]

theorem pairEnc_not38 (p : List Nat × List Nat)
    (h1 : ∀ b ∈ p.1, b < 256) (h2 : ∀ b ∈ p.2, b < 256) :
    (38 : Nat) ∉ pairEnc p := by
  intro hc
  simp only [pairEnc, List.mem_append, List.mem_cons] at hc
  rcases hc with hc | hc | hc
  · exact (mem_percentEncode_facts _ h1 38 hc).1 rfl
  · exact absurd hc (by decide)
  · exact (mem_percentEncode_facts _ h2 38 hc).1 rfl

theorem pairEnc_inj (p q : List Nat × List Nat)
    (hp1 : ∀ b ∈ p.1, b < 256) (hp2 : ∀ b ∈ p.2, b < 256)
    (hq1 : ∀ b ∈ q.1, b < 256) (hq2 : ∀ b ∈ q.2, b < 256)
    (h : pairEnc p = pairEnc q) : p = q := by
  simp only [pairEnc] at h
  have hnp : (61 : Nat) ∉ percentEncode p.1 :=
    fun hc => (mem_percentEncode_facts _ hp1 61 hc).2.1 rfl
  have hnq : (61 : Nat) ∉ percentEncode q.1 :=
    fun hc => (mem_percentEncode_facts _ hq1 61 hc).2.1 rfl
  obtain ⟨e1, e2⟩ := append_sep_inj 61 _ _ _ _ hnp hnq h
  have hk := percentEncode_inj p.1 q.1 hp1 hq1 e1
  have hv := percentEncode_inj p.2 q.2 hp2 hq2 e2
  exact Prod.ext hk hv

theorem map_pairEnc_inj :
    ∀ (l1 l2 : List (List Nat × List Nat)),
      (∀ p ∈ l1, (∀ b ∈ p.1, b < 256) ∧ (∀ b ∈ p.2, b < 256)) →
      (∀ p ∈ l2, (∀ b ∈ p.1, b < 256) ∧ (∀ b ∈ p.2, b < 256)) →
      l1.map pairEnc = l2.map pairEnc → l1 = l2
  | [], [], _, _, _ => rfl
  | [], _ :: _, _, _, h => by simp at h
  | _ :: _, [], _, _, h => by simp at h
  | p :: l1, q :: l2, h1, h2, h => by
    simp only [List.map_cons, List.cons.injEq] at h
    have hp := h1 p (List.mem_cons_self _ _)
    have hq := h2 q (List.mem_cons_self _ _)
    have hpq := pairEnc_inj p q hp.1 hp.2 hq.1 hq.2 h.1
    have hrest := map_pairEnc_inj l1 l2
      (fun r hr => h1 r (List.mem_cons_of_mem _ hr))
      (fun r hr => h2 r (List.mem_cons_of_mem _ hr)) h.2
    rw [hpq, hrest]

theorem insP_fst (k v w : List Nat) :
    ∀ (l m : List (List Nat × List Nat)), l.map Prod.fst = m.map Prod.fst →
      (insSorted (fun a b => lexLt a.1 b.1) (k, v) l).map Prod.fst =
        (insSorted (fun a b => lexLt a.1 b.1) (k, w) m).map Prod.fst
  | [], [], _ => rfl
  | [], _ :: _, h => by simp at h
  | _ :: _, [], h => by simp at h
  | (k1, v1) :: l2, (k1b, w1) :: m2, h => by
    simp only [List.map_cons, List.cons.injEq] at h
    obtain ⟨hk1, hrest⟩ := h
    subst hk1
    simp only [insSorted]
    by_cases hb : lexLt k1 k = true
    · rw [if_pos hb, if_pos hb]
      simp only [List.map_cons]
      rw [insP_fst k v w l2 m2 hrest]
    · rw [if_neg hb, if_neg hb]
      simp only [List.map_cons]
      rw [hrest]

theorem insP_inj (k v w : List Nat) :
    ∀ (l m : List (List Nat × List Nat)), l.map Prod.fst = m.map Prod.fst →
      insSorted (fun a b => lexLt a.1 b.1) (k, v) l =
        insSorted (fun a b => lexLt a.1 b.1) (k, w) m →
      v = w ∧ l = m
  | [], [], _, h => by
    simp only [insSorted, List.cons.injEq] at h
    exact ⟨congrArg Prod.snd h.1, rfl⟩
  | [], _ :: _, hf, _ => by simp at hf
  | _ :: _, [], hf, _ => by simp at hf
  | (k1, v1) :: l2, (k1b, w1) :: m2, hf, h => by
    simp only [List.map_cons, List.cons.injEq] at hf
    obtain ⟨hk1, hrest⟩ := hf
    subst hk1
    simp only [insSorted] at h
    by_cases hb : lexLt k1 k = true
    · rw [if_pos hb, if_pos hb] at h
      injection h with h1 h2
      obtain ⟨hvw, hlm⟩ := insP_inj k v w l2 m2 hrest h2
      refine ⟨hvw, ?_⟩
      rw [h1, hlm]
    · rw [if_neg hb, if_neg hb] at h
      injection h with h1 h2
      exact ⟨congrArg Prod.snd h1, h2⟩

theorem sortPairs_fst :
    ∀ (ps qs : List (List Nat × List Nat)), ps.map Prod.fst = qs.map Prod.fst →
      (sortPairs ps).map Prod.fst = (sortPairs qs).map Prod.fst
  | [], [], _ => rfl
  | [], _ :: _, h => by simp at h
  | _ :: _, [], h => by simp at h
  | (k, v) :: ps2, (kb, w) :: qs2, h => by
    simp only [List.map_cons, List.cons.injEq] at h
    obtain ⟨hk, hrest⟩ := h
    subst hk
    exact insP_fst k v w _ _ (sortPairs_fst ps2 qs2 hrest)

theorem sortPairs_inj :
    ∀ (ps qs : List (List Nat × List Nat)), ps.map Prod.fst = qs.map Prod.fst →
      sortPairs ps = sortPairs qs → ps = qs
  | [], [], _, _ => rfl
  | [], _ :: _, h, _ => by simp at h
  | _ :: _, [], h, _ => by simp at h
  | (k, v) :: ps2, (kb, w) :: qs2, h, hs => by
    simp only [List.map_cons, List.cons.injEq] at h
    obtain ⟨hk, hrest⟩ := h
    subst hk
    obtain ⟨hvw, hlm⟩ := insP_inj k v w _ _ (sortPairs_fst ps2 qs2 hrest) hs
    rw [hvw, sortPairs_inj ps2 qs2 hrest hlm]

theorem mem_joinAmp :
    ∀ (l : List (List Nat)) (c : Nat), c ∈ joinAmp l →
      (∃ x ∈ l, c ∈ x) ∨ c = 38
  | [], c, h => by simp [joinAmp] at h
  | [x], c, h => Or.inl ⟨x, List.mem_cons_self _ _, h⟩
  | x :: x2 :: xs, c, h => by
    have h' : c ∈ x ++ 38 :: joinAmp (x2 :: xs) := h
    rcases List.mem_append.mp h' with hx | hx
    · exact Or.inl ⟨x, List.mem_cons_self _ _, hx⟩
    · rcases List.mem_cons.mp hx with rfl | hx2
      · exact Or.inr rfl
      · rcases mem_joinAmp (x2 :: xs) c hx2 with ⟨y, hy, hcy⟩ | h38
        · exact Or.inl ⟨y, List.mem_cons_of_mem _ hy, hcy⟩
        · exact Or.inr h38

theorem mem_canonicalizedQuery_lt (ps : List (List Nat × List Nat))
    (hps : ∀ p ∈ ps, (∀ b ∈ p.1, b < 256) ∧ (∀ b ∈ p.2, b < 256)) :
    ∀ c ∈ canonicalizedQuery ps, c < 256 := by
  intro c hc
  rcases mem_joinAmp _ c hc with ⟨x, hx, hcx⟩ | rfl
  · rcases List.mem_map.mp hx with ⟨p, hp, rfl⟩
    obtain ⟨h1, h2⟩ := hps p (((stableSort_perm _ ps).mem_iff).mp hp)
    simp only [pairEnc, List.mem_append, List.mem_cons] at hcx
    rcases hcx with hcx | rfl | hcx
    · exact (mem_percentEncode_facts _ h1 c hcx).2.2
    · omega
    · exact (mem_percentEncode_facts _ h2 c hcx).2.2
  · omega

theorem canonicalizedQuery_inj (ps qs : List (List Nat × List Nat))
    (hps : ∀ p ∈ ps, (∀ b ∈ p.1, b < 256) ∧ (∀ b ∈ p.2, b < 256))
    (hqs : ∀ p ∈ qs, (∀ b ∈ p.1, b < 256) ∧ (∀ b ∈ p.2, b < 256))
    (hkeys : ps.map Prod.fst = qs.map Prod.fst)
    (h : canonicalizedQuery ps = canonicalizedQuery qs) : ps = qs := by
  have hlen : ps.length = qs.length := by
    have hc := congrArg List.length hkeys
    simpa using hc
  have hsortps : ∀ p ∈ sortPairs ps,
      (∀ b ∈ p.1, b < 256) ∧ (∀ b ∈ p.2, b < 256) :=
    fun p hp => hps p (((stableSort_perm _ ps).mem_iff).mp hp)
  have hsortqs : ∀ p ∈ sortPairs qs,
      (∀ b ∈ p.1, b < 256) ∧ (∀ b ∈ p.2, b < 256) :=
    fun p hp => hqs p (((stableSort_perm _ qs).mem_iff).mp hp)
  have hlens : ((sortPairs ps).map pairEnc).length =
      ((sortPairs qs).map pairEnc).length := by
    simp only [List.length_map]
    exact ((stableSort_perm _ ps).length_eq).trans
      (hlen.trans ((stableSort_perm _ qs).length_eq).symm)
  have hx : ∀ x ∈ (sortPairs ps).map pairEnc, (38 : Nat) ∉ x := by
    intro x hmem
    rcases List.mem_map.mp hmem with ⟨p, hp, rfl⟩
    exact pairEnc_not38 p (hsortps p hp).1 (hsortps p hp).2
  have hy : ∀ x ∈ (sortPairs qs).map pairEnc, (38 : Nat) ∉ x := by
    intro x hmem
    rcases List.mem_map.mp hmem with ⟨p, hp, rfl⟩
    exact pairEnc_not38 p (hsortqs p hp).1 (hsortqs p hp).2
  have hmaps := joinAmp_inj _ _ hlens hx hy h
  exact sortPairs_inj ps qs hkeys (map_pairEnc_inj _ _ hsortps hsortqs hmaps)

theorem stringToSign_inj (ps qs : List (List Nat × List Nat))
    (hps : ∀ p ∈ ps, (∀ b ∈ p.1, b < 256) ∧ (∀ b ∈ p.2, b < 256))
    (hqs : ∀ p ∈ qs, (∀ b ∈ p.1, b < 256) ∧ (∀ b ∈ p.2, b < 256))
    (hkeys : ps.map Prod.fst = qs.map Prod.fst)
    (h : stringToSign ps = stringToSign qs) : ps = qs := by
  simp only [stringToSign] at h
  have h2 := List.append_cancel_left h
  injection h2 with _ h4
  exact canonicalizedQuery_inj ps qs hps hqs hkeys
    (percentEncode_inj _ _ (mem_canonicalizedQuery_lt ps hps)
      (mem_canonicalizedQuery_lt qs hqs) h4)

/-- C7: the request signer is deterministic: identical parameter maps
(nonce and timestamp included as parameters) sign identically; and for
two maps over the same keys whose values differ anywhere, the
canonicalized strings-to-sign differ, hence so do the signatures,
granted that the abstract HMAC-SHA1-plus-base64 primitive (an external
crypto function, modelled as the parameter hmac) is collision-free under
the derived key.  Parameter keys and values are UTF-8 byte lists with
bytes below 256. -/
theorem C7_signerDeterminism (hmac : List Nat → List Nat → List Nat)
    (sk : List Nat) (ps qs : List (List Nat × List Nat))
    (hkeys : ps.map Prod.fst = qs.map Prod.fst)
    (hps : ∀ p ∈ ps, (∀ b ∈ p.1, b < 256) ∧ (∀ b ∈ p.2, b < 256))
    (hqs : ∀ p ∈ qs, (∀ b ∈ p.1, b < 256) ∧ (∀ b ∈ p.2, b < 256))
    (hinj : ∀ m1 m2, hmac (sk ++ [38]) m1 = hmac (sk ++ [38]) m2 → m1 = m2) :
    (ps = qs → esaSignature hmac sk ps = esaSignature hmac sk qs) ∧
    (ps ≠ qs → esaSignature hmac sk ps ≠ esaSignature hmac sk qs) := by
  constructor
  · intro h
    rw [h]
  · intro hne hsig
    exact hne (stringToSign_inj ps qs hps hqs hkeys (hinj _ _ hsig))

/-- Witness for C7: changing one parameter value changes the signature
under an injective stand-in for the HMAC primitive. -/
theorem C7_signerDeterminism_witness :
    esaSignature (fun _ msg => msg) [] [([65], [66])] ≠
      esaSignature (fun _ msg => msg) [] [([65], [67])] :=
  (C7_signerDeterminism (fun _ msg => msg) [] [([65], [66])] [([65], [67])] rfl
    (by decide) (by decide) (fun _ _ h => h)).2 (by decide)

/-- C5: on every zone-scope request that reaches the analytics query,
the GraphQL document sent has a filter consisting of exactly the
lower-bound clause dimensionKey_geq bound to the from variable, no
filter entry references the to variable, yet the variables object still
carries the upper bound; and the handler indeed sends this query. -/
theorem C5_zoneQueryLowerBoundOnly (parse : String → Int) (toISO : Int → String)
    (protoStr : String → String)
    (nowMs : Int) (keys : CdnKeys) (req : CdnReq) (up : CdnUpstream)
    (m : String) (config : MetricEntry) (zl : List (String × String))
    (hcreds : cdnCredsOk keys = true)
    (hm : req.metric = some m)
    (htopn : lookupKV ZONE_TOPN_CONFIG m = none)
    (hmap : lookupKV METRIC_MAP m = some config)
    (hscope : config.scope = "zone")
    (hz : up.zonesFetch = Except.ok zl)
    (hne : zl ≠ []) :
    (buildZoneQuery (getTimeConfig parse toISO nowMs req.startTime req.endTime)
        (zl.map Prod.fst)).filter =
      [((getTimeConfig parse toISO nowMs req.startTime req.endTime).dimensionKey ++
          "_geq", GqlVar.fromV)] ∧
    (∀ e ∈ (buildZoneQuery (getTimeConfig parse toISO nowMs req.startTime req.endTime)
        (zl.map Prod.fst)).filter, e.2 ≠ GqlVar.toV) ∧
    (buildZoneQuery (getTimeConfig parse toISO nowMs req.startTime req.endTime)
        (zl.map Prod.fst)).vars.toV =
      (getTimeConfig parse toISO nowMs req.startTime req.endTime).queryTo ∧
    CdnCall.gqlZone
        (buildZoneQuery (getTimeConfig parse toISO nowMs req.startTime req.endTime)
          (zl.map Prod.fst)) ∈
      (cdnTraffic parse toISO protoStr nowMs keys req up).calls := by
  refine ⟨rfl, ?_, rfl, ?_⟩
  · intro e he
    simp only [buildZoneQuery, List.mem_singleton] at he
    subst he
    simp
  · have hproto := metricMap_not_proto m config hmap
    have hlen : ¬ ((zl.map Prod.fst).length = 0) := by
      simp only [List.length_map, List.length_eq_zero]
      exact hne
    by_cases he : up.zoneQuery.errorsPresent = true <;>
      simp [cdnTraffic, hcreds, hm, htopn, hmap, hscope, hz, hne, hlen, he, hproto]

/-- Witness for C5 at a concrete zone-scope request. -/
theorem C5_zoneQueryLowerBoundOnly_witness :
    CdnCall.gqlZone
        (buildZoneQuery (getTimeConfig (fun _ => 0) (fun _ => "T") 0 none none)
          ([("z1", "example.com")].map Prod.fst)) ∈
      (cdnTraffic (fun _ => 0) (fun _ => "T") (fun _ => "") 0
        ⟨some "i", some "k", some "a", some "z"⟩ ⟨some "l7Flow_outFlux_domain", none, none⟩
        ⟨⟨false, none, none⟩, Except.ok [("z1", "example.com")],
         ⟨false, none, none⟩, ⟨false, none, none⟩⟩).calls :=
  (C5_zoneQueryLowerBoundOnly (fun _ => 0) (fun _ => "T") (fun _ => "") 0
    ⟨some "i", some "k", some "a", some "z"⟩ ⟨some "l7Flow_outFlux_domain", none, none⟩
    ⟨⟨false, none, none⟩, Except.ok [("z1", "example.com")],
     ⟨false, none, none⟩, ⟨false, none, none⟩⟩
    "l7Flow_outFlux_domain"
    { name := "l7Flow_outFlux_domain", sumid := "bytes", scope := "zone" }
    [("z1", "example.com")] rfl rfl rfl rfl rfl rfl (by decide)).2.2.2

/-- C6 counterexample: the edge adapter returns a Top-N distribution in
upstream order without sorting; with upstream rows A:1 then B:9 the
returned DetailData is [A:1, B:9], which is not descending by value, so
the claim that every distribution result of either adapter is sorted
descending fails. -/
theorem C6_counterexample :
    (esaTraffic (fun _ => 0) "" "" "" ⟨some "i", some "k"⟩
        ⟨some "l7Flow_request_country", none, none, none, none, none⟩
        ⟨true, 200, "",
          ⟨some [⟨some [⟨some 1, none, "A"⟩, ⟨some 9, none, "B"⟩]⟩], none⟩⟩).body =
      EsaBody.topResult [some [⟨"A", some 1, none⟩, ⟨"B", some 9, none⟩]] ∧
    ¬ List.Chain' (fun a b : TopKV => b.value.getD 0 ≤ a.value.getD 0)
        [(⟨"A", some 1, none⟩ : TopKV), ⟨"B", some 9, none⟩] := by
  refine ⟨rfl, ?_⟩
  intro h
  have h1 := (List.chain'_cons.mp h).1
  norm_num at h1

/-- C6 amended: the CDN adapter stably sorts its distribution results
(zone scope and account-scope distribution both use the same sort)
descending by value, ties keeping upstream order; the edge adapter
Top-N branch and the ad-hoc zone Top-N branch only rename fields and
preserve upstream row order, performing no sort of their own. -/
theorem C6_distributionSort (l : List (String × Int)) (v : Int)
    (rows : List EsaDetailRow) (f : String) (groups : List TopnGroup) :
    List.Chain' (fun a b : String × Int => b.2 ≤ a.2) (sortByValueDesc l) ∧
    (sortByValueDesc l).Perm l ∧
    (sortByValueDesc l).filter (fun a => decide (a.2 = v)) =
      l.filter (fun a => decide (a.2 = v)) ∧
    (mapTopRows rows).map (fun r => r.key) =
      rows.map (fun r => r.dimensionValue) ∧
    (mapTopRows rows).map (fun r => r.value) = rows.map (fun r => r.value) ∧
    (groups.map (fun g => (g.dims f, g.count))).map Prod.snd =
      groups.map (fun g => g.count) := by
  refine ⟨?_, stableSort_perm _ l, ?_, ?_, ?_, ?_⟩
  · have hchain := chain_stableSort (fun a b : String × Int => decide (b.2 < a.2))
      (fun a b h => by simp at h ⊢; omega) l
    exact hchain.imp (fun h => by simpa using h)
  · exact filter_stableSort _ Prod.snd (fun a b h => by simp [h]) v l
  · simp [mapTopRows]
  · simp [mapTopRows]
  · simp [List.map_map]

/-- Witness for C6: the tied rows A:5, B:9, C:9 sort to [B, C, A],
descending with the tie in upstream order. -/
theorem C6_distributionSort_witness :
    sortByValueDesc [("A", 5), ("B", 9), ("C", 9)] = [("B", 9), ("C", 9), ("A", 5)] ∧
    List.Chain' (fun a b : String × Int => b.2 ≤ a.2)
      (sortByValueDesc [("A", 5), ("B", 9), ("C", 9)]) :=
  ⟨by decide, (C6_distributionSort [("A", 5), ("B", 9), ("C", 9)] 9 [] "" []).1⟩

/-- C8 counterexample: for an unknown metric the edge adapter responds
with body error Invalid metric parameter, not the claimed Invalid
metric. -/
theorem C8_counterexample :
    lookupKV METRIC_CONFIG_filled "toString" = none ∧
    (esaTraffic (fun _ => 0) "" "" "" ⟨some "i", some "k"⟩
        ⟨some "toString", none, none, none, none, none⟩
        ⟨true, 200, "", ⟨none, none⟩⟩).status = 200 ∧
    (esaTraffic (fun _ => 0) "" "" "" ⟨some "i", some "k"⟩
        ⟨some "toString", none, none, none, none, none⟩
        ⟨true, 200, "", ⟨none, none⟩⟩).calls ≠ [] := by
  exact ⟨rfl, rfl, by decide⟩

/-- C8 amended: a request whose metric key is neither an own key of the
adapter registries (CDN: METRIC_MAP and the ad-hoc ZONE_TOPN_CONFIG;
edge: METRIC_CONFIG) nor the name of an Object.prototype member is
answered 400 with zero upstream calls — body error Invalid metric on
the CDN adapter, error Invalid metric parameter on the edge adapter;
but for an Object.prototype member name (toString and the like) the
lookup finds the inherited truthy member, so the CDN adapter takes the
ad-hoc Top-N branch and the edge adapter signs and sends its request:
each makes an upstream call and neither produces the invalid-metric
body. -/
theorem C8_invalidMetric (parse : String → Int) (toISO : Int → String)
    (protoStr : String → String)
    (nowMs : Int) (keys : CdnKeys) (req : CdnReq) (up : CdnUpstream) (m : String)
    (eparse : String → Int) (nowISO yISO nonce : String)
    (ekeys : EsaKeys) (ereq : EsaReq) (eup : EsaUpstream) (m2 : String)
    (hcreds : cdnCredsOk keys = true)
    (hm : req.metric = some m)
    (htopn : lookupKV ZONE_TOPN_CONFIG m = none)
    (hmap : lookupKV METRIC_MAP m = none)
    (hecreds : esaCredsOk ekeys = true)
    (hm2 : ereq.metric = some m2)
    (hcfg : lookupKV METRIC_CONFIG_filled m2 = none) :
    (m ∉ protoKeys →
      cdnTraffic parse toISO protoStr nowMs keys req up =
        ⟨400, CdnBody.errMsg "Invalid metric", []⟩) ∧
    (m2 ∉ protoKeys →
      esaTraffic eparse nowISO yISO nonce ekeys ereq eup =
        ⟨400, EsaBody.errMsg "Invalid metric parameter", []⟩) ∧
    (m ∈ protoKeys →
      (cdnTraffic parse toISO protoStr nowMs keys req up).calls ≠ [] ∧
      (cdnTraffic parse toISO protoStr nowMs keys req up).body ≠
        CdnBody.errMsg "Invalid metric") ∧
    (m2 ∈ protoKeys →
      (esaTraffic eparse nowISO yISO nonce ekeys ereq eup).calls ≠ [] ∧
      (esaTraffic eparse nowISO yISO nonce ekeys ereq eup).body ≠
        EsaBody.errMsg "Invalid metric parameter") := by
  refine ⟨?_, ?_, ?_, ?_⟩
  · intro hp
    simp [cdnTraffic, hcreds, hm, htopn, hmap, hp]
  · intro hp
    simp [esaTraffic, hecreds, hm2, hcfg, hp]
  · intro hp
    have hred : cdnTraffic parse toISO protoStr nowMs keys req up =
        cdnTopnRespond
          { zonetag := truthyOr keys.zonetag "", targetField := protoStr m,
            queryFrom := (getTimeConfig parse toISO nowMs req.startTime
              req.endTime).queryFrom,
            queryTo := (getTimeConfig parse toISO nowMs req.startTime
              req.endTime).queryTo } up.topn := by
      simp [cdnTraffic, hcreds, hm, htopn, hp]
    rw [hred]
    refine ⟨?_, cdnTopnRespond_body_ne _ _⟩
    rw [cdnTopnRespond_calls]
    simp
  · intro hp
    have hred : esaTraffic eparse nowISO yISO nonce ekeys ereq eup =
        esaRespond eparse m2 false
          (esaParamsProto nonce nowISO yISO (truthyOr ekeys.secretId "") ereq)
          eup := by
      simp [esaTraffic, hecreds, hm2, hcfg, hp]
    rw [hred]
    refine ⟨?_, esaRespond_body_ne _ _ _ _ _ _⟩
    rw [esaRespond_calls]
    simp

/-- Witness for C8: the unknown key nope is answered 400 with no calls
on the CDN adapter, while the prototype name toString makes the edge
adapter issue its upstream call. -/
theorem C8_invalidMetric_witness :
    cdnTraffic (fun _ => 0) (fun _ => "T") (fun _ => "fn") 0
        ⟨some "i", some "k", some "a", some "z"⟩ ⟨some "nope", none, none⟩
        ⟨⟨false, none, none⟩, Except.ok [], ⟨false, none, none⟩, ⟨false, none, none⟩⟩ =
      ⟨400, CdnBody.errMsg "Invalid metric", []⟩ ∧
    (esaTraffic (fun _ => 0) "" "" "" ⟨some "i", some "k"⟩
        ⟨some "toString", none, none, none, none, none⟩
        ⟨true, 200, "", ⟨none, none⟩⟩).calls ≠ [] :=
  ⟨(C8_invalidMetric (fun _ => 0) (fun _ => "T") (fun _ => "fn") 0
      ⟨some "i", some "k", some "a", some "z"⟩ ⟨some "nope", none, none⟩
      ⟨⟨false, none, none⟩, Except.ok [], ⟨false, none, none⟩, ⟨false, none, none⟩⟩
      "nope" (fun _ => 0) "" "" "" ⟨some "i", some "k"⟩
      ⟨some "toString", none, none, none, none, none⟩ ⟨true, 200, "", ⟨none, none⟩⟩
      "toString" rfl rfl rfl rfl rfl rfl rfl).1 (by decide),
   ((C8_invalidMetric (fun _ => 0) (fun _ => "T") (fun _ => "fn") 0
      ⟨some "i", some "k", some "a", some "z"⟩ ⟨some "nope", none, none⟩
      ⟨⟨false, none, none⟩, Except.ok [], ⟨false, none, none⟩, ⟨false, none, none⟩⟩
      "nope" (fun _ => 0) "" "" "" ⟨some "i", some "k"⟩
      ⟨some "toString", none, none, none, none, none⟩ ⟨true, 200, "", ⟨none, none⟩⟩
      "toString" rfl rfl rfl rfl rfl rfl rfl).2.2.2 (by decide)).1⟩

/-- C9 counterexample: on the ad-hoc Top-N path a successful upstream
response with zero zones does not yield an empty result: reading
zones[0] crashes into the catch-all and the handler answers 500 with an
error body instead of 200 with empty Data. -/
theorem C9_counterexample :
    (cdnTraffic (fun _ => 0) (fun _ => "T") (fun _ => "") 0
        ⟨some "i", some "k", some "a", some "z"⟩ ⟨some "l7Flow_request_sip", none, none⟩
        ⟨⟨false, some [], none⟩, Except.ok [], ⟨false, none, none⟩,
         ⟨false, none, none⟩⟩).status = 500 ∧
    (cdnTraffic (fun _ => 0) (fun _ => "T") (fun _ => "") 0
        ⟨some "i", some "k", some "a", some "z"⟩ ⟨some "l7Flow_request_sip", none, none⟩
        ⟨⟨false, some [], none⟩, Except.ok [], ⟨false, none, none⟩,
         ⟨false, none, none⟩⟩).body =
      CdnBody.errMsg
        "Cannot read properties of undefined (reading httpRequestsAdaptiveGroups)" ∧
    CdnBody.errMsg
        "Cannot read properties of undefined (reading httpRequestsAdaptiveGroups)" ≠
      CdnBody.dataEmpty := by
  refine ⟨rfl, rfl, ?_⟩
  intro h
  cases h

/-- C9 amended: on each CDN query path an upstream GraphQL response with
an errors array is surfaced as a 400 whose body is the raw payload; a
zone listing with zero zones (zone scope) or a response with missing or
zero accounts (account scope) yields 200 with empty Data; but on the
ad-hoc Top-N path a successful response with zero zones crashes into
the catch-all and is answered 500, not with an empty result. -/
theorem C9_upstreamErrors :
    (∀ (parse : String → Int) (toISO : Int → String)
        (protoStr : String → String) (nowMs : Int)
        (keys : CdnKeys) (req : CdnReq) (up : CdnUpstream) (m f : String),
      cdnCredsOk keys = true → req.metric = some m →
      lookupKV ZONE_TOPN_CONFIG m = some f →
      up.topn.errorsPresent = true →
      (cdnTraffic parse toISO protoStr nowMs keys req up).status = 400 ∧
      (cdnTraffic parse toISO protoStr nowMs keys req up).body = CdnBody.echo up.topn) ∧
    (∀ (parse : String → Int) (toISO : Int → String)
        (protoStr : String → String) (nowMs : Int)
        (keys : CdnKeys) (req : CdnReq) (up : CdnUpstream)
        (m : String) (config : MetricEntry) (zl : List (String × String)),
      cdnCredsOk keys = true → req.metric = some m →
      lookupKV ZONE_TOPN_CONFIG m = none →
      lookupKV METRIC_MAP m = some config → config.scope = "zone" →
      up.zonesFetch = Except.ok zl → zl ≠ [] →
      up.zoneQuery.errorsPresent = true →
      (cdnTraffic parse toISO protoStr nowMs keys req up).status = 400 ∧
      (cdnTraffic parse toISO protoStr nowMs keys req up).body = CdnBody.echo up.zoneQuery) ∧
    (∀ (parse : String → Int) (toISO : Int → String)
        (protoStr : String → String) (nowMs : Int)
        (keys : CdnKeys) (req : CdnReq) (up : CdnUpstream)
        (m : String) (config : MetricEntry),
      cdnCredsOk keys = true → req.metric = some m →
      lookupKV ZONE_TOPN_CONFIG m = none →
      lookupKV METRIC_MAP m = some config → config.scope ≠ "zone" →
      up.account.errorsPresent = true →
      (cdnTraffic parse toISO protoStr nowMs keys req up).status = 400 ∧
      (cdnTraffic parse toISO protoStr nowMs keys req up).body = CdnBody.echo up.account) ∧
    (∀ (parse : String → Int) (toISO : Int → String)
        (protoStr : String → String) (nowMs : Int)
        (keys : CdnKeys) (req : CdnReq) (up : CdnUpstream)
        (m : String) (config : MetricEntry),
      cdnCredsOk keys = true → req.metric = some m →
      lookupKV ZONE_TOPN_CONFIG m = none →
      lookupKV METRIC_MAP m = some config → config.scope = "zone" →
      up.zonesFetch = Except.ok [] →
      cdnTraffic parse toISO protoStr nowMs keys req up =
        ⟨200, CdnBody.dataEmpty, [CdnCall.fetchZones]⟩) ∧
    (∀ (parse : String → Int) (toISO : Int → String)
        (protoStr : String → String) (nowMs : Int)
        (keys : CdnKeys) (req : CdnReq) (up : CdnUpstream)
        (m : String) (config : MetricEntry),
      cdnCredsOk keys = true → req.metric = some m →
      lookupKV ZONE_TOPN_CONFIG m = none →
      lookupKV METRIC_MAP m = some config → config.scope ≠ "zone" →
      up.account.errorsPresent = false →
      (up.account.accounts = none ∨ up.account.accounts = some []) →
      (cdnTraffic parse toISO protoStr nowMs keys req up).status = 200 ∧
      (cdnTraffic parse toISO protoStr nowMs keys req up).body = CdnBody.dataEmpty) ∧
    (∀ (parse : String → Int) (toISO : Int → String)
        (protoStr : String → String) (nowMs : Int)
        (keys : CdnKeys) (req : CdnReq) (up : CdnUpstream) (m f : String),
      cdnCredsOk keys = true → req.metric = some m →
      lookupKV ZONE_TOPN_CONFIG m = some f →
      up.topn.errorsPresent = false → up.topn.zones = some [] →
      (cdnTraffic parse toISO protoStr nowMs keys req up).status = 500) := by
  refine ⟨?_, ?_, ?_, ?_, ?_, ?_⟩
  · intro parse toISO protoStr nowMs keys req up m f hcreds hm htopn herr
    simp [cdnTraffic, cdnTopnRespond, hcreds, hm, htopn, herr]
  · intro parse toISO protoStr nowMs keys req up m config zl hcreds hm htopn hmap
      hscope hz hne herr
    have hproto := metricMap_not_proto m config hmap
    have hlen : ¬ ((zl.map Prod.fst).length = 0) := by
      simp only [List.length_map, List.length_eq_zero]
      exact hne
    simp [cdnTraffic, hcreds, hm, htopn, hmap, hscope, hz, hlen, hne, herr, hproto]
  · intro parse toISO protoStr nowMs keys req up m config hcreds hm htopn hmap
      hscope herr
    have hproto := metricMap_not_proto m config hmap
    simp [cdnTraffic, hcreds, hm, htopn, hmap, hscope, herr, hproto]
  · intro parse toISO protoStr nowMs keys req up m config hcreds hm htopn hmap
      hscope hz
    have hproto := metricMap_not_proto m config hmap
    simp [cdnTraffic, hcreds, hm, htopn, hmap, hscope, hz, hproto]
  · intro parse toISO protoStr nowMs keys req up m config hcreds hm htopn hmap
      hscope herr haccs
    have hproto := metricMap_not_proto m config hmap
    rcases haccs with h | h <;>
      simp [cdnTraffic, hcreds, hm, htopn, hmap, hscope, herr, h, hproto]
  · intro parse toISO protoStr nowMs keys req up m f hcreds hm htopn herr hzs
    simp [cdnTraffic, cdnTopnRespond, hcreds, hm, htopn, herr, hzs]

/-- Witness for C9: a concrete ad-hoc Top-N request whose upstream
response reports errors is answered 400 echoing the payload. -/
theorem C9_upstreamErrors_witness :
    (cdnTraffic (fun _ => 0) (fun _ => "T") (fun _ => "") 0
        ⟨some "i", some "k", some "a", some "z"⟩ ⟨some "l7Flow_request_sip", none, none⟩
        ⟨⟨true, none, none⟩, Except.ok [], ⟨false, none, none⟩,
         ⟨false, none, none⟩⟩).status = 400 ∧
    (cdnTraffic (fun _ => 0) (fun _ => "T") (fun _ => "") 0
        ⟨some "i", some "k", some "a", some "z"⟩ ⟨some "l7Flow_request_sip", none, none⟩
        ⟨⟨true, none, none⟩, Except.ok [], ⟨false, none, none⟩,
         ⟨false, none, none⟩⟩).body =
      CdnBody.echo ⟨true, none, none⟩ :=
  C9_upstreamErrors.1 (fun _ => 0) (fun _ => "T") (fun _ => "") 0
    ⟨some "i", some "k", some "a", some "z"⟩ ⟨some "l7Flow_request_sip", none, none⟩
    ⟨⟨true, none, none⟩, Except.ok [], ⟨false, none, none⟩, ⟨false, none, none⟩⟩
    "l7Flow_request_sip" "clientIP" rfl rfl rfl rfl

/-- C10: in both adapters the credential check precedes metric
validation and every upstream call: with any missing credential the CDN
adapter answers 401 and the edge adapter 500, both with body error
Missing credentials and zero upstream calls, whatever the metric
parameter. -/
theorem C10_credsFirst (parse : String → Int) (toISO : Int → String)
    (protoStr : String → String)
    (nowMs : Int) (keys : CdnKeys) (req : CdnReq) (up : CdnUpstream)
    (eparse : String → Int) (nowISO yISO nonce : String)
    (ekeys : EsaKeys) (ereq : EsaReq) (eup : EsaUpstream) :
    (truthyStr keys.secretId = false ∨ truthyStr keys.secretKey = false ∨
        truthyStr keys.accountTag = false ∨ truthyStr keys.zonetag = false →
      cdnTraffic parse toISO protoStr nowMs keys req up =
        ⟨401, CdnBody.errMsg "Missing credentials", []⟩) ∧
    (truthyStr ekeys.secretId = false ∨ truthyStr ekeys.secretKey = false →
      esaTraffic eparse nowISO yISO nonce ekeys ereq eup =
        ⟨500, EsaBody.errMsg "Missing credentials", []⟩) := by
  constructor
  · intro h
    have hc : cdnCredsOk keys = false := by
      rcases h with h | h | h | h <;> simp [cdnCredsOk, h]
    simp [cdnTraffic, hc]
  · intro h
    have hc : esaCredsOk ekeys = false := by
      rcases h with h | h <;> simp [esaCredsOk, h]
    simp [esaTraffic, hc]

/-- Witness for C10: concrete requests with a missing credential on each
adapter, one of them naming an ad-hoc Top-N metric. -/
theorem C10_credsFirst_witness :
    cdnTraffic (fun _ => 0) (fun _ => "T") (fun _ => "") 0
        ⟨none, some "k", some "a", some "z"⟩ ⟨some "l7Flow_request_sip", none, none⟩
        ⟨⟨false, none, none⟩, Except.ok [], ⟨false, none, none⟩, ⟨false, none, none⟩⟩ =
      ⟨401, CdnBody.errMsg "Missing credentials", []⟩ ∧
    esaTraffic (fun _ => 0) "" "" "" ⟨some "i", none⟩
        ⟨some "l7Flow_flux", none, none, none, none, none⟩ ⟨true, 200, "", ⟨none, none⟩⟩ =
      ⟨500, EsaBody.errMsg "Missing credentials", []⟩ :=
  ⟨(C10_credsFirst (fun _ => 0) (fun _ => "T") (fun _ => "") 0
      ⟨none, some "k", some "a", some "z"⟩ ⟨some "l7Flow_request_sip", none, none⟩
      ⟨⟨false, none, none⟩, Except.ok [], ⟨false, none, none⟩, ⟨false, none, none⟩⟩
      (fun _ => 0) "" "" "" ⟨some "i", none⟩
      ⟨some "l7Flow_flux", none, none, none, none, none⟩
      ⟨true, 200, "", ⟨none, none⟩⟩).1 (Or.inl (by decide)),
   (C10_credsFirst (fun _ => 0) (fun _ => "T") (fun _ => "") 0
      ⟨none, some "k", some "a", some "z"⟩ ⟨some "l7Flow_request_sip", none, none⟩
      ⟨⟨false, none, none⟩, Except.ok [], ⟨false, none, none⟩, ⟨false, none, none⟩⟩
      (fun _ => 0) "" "" "" ⟨some "i", none⟩
      ⟨some "l7Flow_flux", none, none, none, none, none⟩
      ⟨true, 200, "", ⟨none, none⟩⟩).2 (Or.inr (by decide))⟩

end Monitor
